/-
Formal model of the stock-api repository's normalization and quality-scoring
services, with theorems settling the specification claims.

Conventions of the embedding:
* Python floats are modelled as rationals (ℚ); all arithmetic in the scored
  code paths is exact in both semantics for the properties proved here.
* Python `float(str)` is modelled by `pyFloat`, a parser for signed decimal
  literals with optional fraction and exponent, stripping surrounding
  whitespace as the builtin does.  Special tokens ("inf", "nan") and
  underscored literals are outside every claim's input set and are not
  modelled.
* Python `round(x, 2)` is modelled by `round2` (round to the nearest
  hundredth; the tie-breaking rule differs from CPython's ties-to-even but
  no claim depends on exact ties).
* CSV cells are `Option String` (a missing column is `none`).
* Dictionaries keyed by strings are association lists in insertion order.
-/
import Mathlib

/-- Numeric value of a list of decimal digit characters. -/
def digitsVal (cs : List Char) : ℕ :=
  cs.foldl (fun n c => 10 * n + (c.toNat - 48)) 0

/-- Model of `str.replace(",", "")`. -/
def removeCommas (s : String) : String :=
  ⟨s.data.filter (fun c => c ≠ ',')⟩

/-- Exponent part with explicit positive sign (or no sign): `m * 10 ^ digits`. -/
def pyFloatExpPos (m : ℚ) (cs : List Char) : Option ℚ :=
  if cs ≠ [] ∧ cs.all Char.isDigit then some (m * 10 ^ digitsVal cs) else none

/-- Exponent part with negative sign: `m / 10 ^ digits`. -/
def pyFloatExpNeg (m : ℚ) (cs : List Char) : Option ℚ :=
  if cs ≠ [] ∧ cs.all Char.isDigit then some (m / 10 ^ digitsVal cs) else none

/-- Signed exponent digits after the `e`. -/
def pyFloatExpDigits (m : ℚ) (cs : List Char) : Option ℚ :=
  match cs with
  | '+' :: rest => pyFloatExpPos m rest
  | '-' :: rest => pyFloatExpNeg m rest
  | _ => pyFloatExpPos m cs

/-- Optional exponent marker after the mantissa. -/
def pyFloatExp (m : ℚ) (cs : List Char) : Option ℚ :=
  match cs with
  | [] => some m
  | 'e' :: rest => pyFloatExpDigits m rest
  | 'E' :: rest => pyFloatExpDigits m rest
  | _ => none

/-- Unsigned decimal literal: digits, optional point and fraction, optional
exponent.  At least one digit must appear in the mantissa. -/
def pyFloatCore (cs : List Char) : Option ℚ :=
  let ip := cs.takeWhile Char.isDigit
  let rest := cs.dropWhile Char.isDigit
  match rest with
  | '.' :: rest2 =>
    let fp := rest2.takeWhile Char.isDigit
    let rest3 := rest2.dropWhile Char.isDigit
    if ip = [] ∧ fp = [] then none
    else pyFloatExp ((digitsVal ip : ℚ) + (digitsVal fp : ℚ) / 10 ^ fp.length) rest3
  | _ =>
    if ip = [] then none
    else pyFloatExp (digitsVal ip : ℚ) rest

/-- Whitespace stripping from both ends (Python `str.strip()`), kept on
character lists so every use reduces structurally. -/
def pyTrimChars (cs : List Char) : List Char :=
  ((cs.dropWhile Char.isWhitespace).reverse.dropWhile Char.isWhitespace).reverse

/-- `str.strip()` on strings. -/
def pyStrip (s : String) : String :=
  ⟨pyTrimChars s.data⟩

/-- `str.upper()` (the identifiers involved are ASCII). -/
def pyToUpper (s : String) : String :=
  ⟨s.data.map Char.toUpper⟩

/-- Model of Python `float(s)` on decimal literals: strip whitespace, optional
sign, then an unsigned literal.  Returns `none` where CPython raises
`ValueError`. -/
def pyFloat (s : String) : Option ℚ :=
  match pyTrimChars s.data with
  | '+' :: rest => pyFloatCore rest
  | '-' :: rest => (pyFloatCore rest).map (fun q => -q)
  | cs => pyFloatCore cs

/-- Model of Python `round(x, 2)`: nearest multiple of 1/100. -/
def round2 (q : ℚ) : ℚ :=
  ((round (q * 100) : ℤ) : ℚ) / 100

theorem round_mono_of_le {x y : ℚ} (h : x ≤ y) : round x ≤ round y := by
  rw [round_eq, round_eq]
  exact Int.floor_le_floor (by linarith)

theorem round2_nonneg {q : ℚ} (h : 0 ≤ q) : 0 ≤ round2 q := by
  unfold round2
  have h1 : round (0 : ℚ) ≤ round (q * 100) := round_mono_of_le (by nlinarith)
  rw [round_zero] at h1
  have h2 : (0 : ℚ) ≤ ((round (q * 100) : ℤ) : ℚ) := by exact_mod_cast h1
  linarith

theorem round2_le_100 {q : ℚ} (h : q ≤ 100) : round2 q ≤ 100 := by
  unfold round2
  have h1 : round (q * 100) ≤ round ((10000 : ℤ) : ℚ) := round_mono_of_le (by push_cast; nlinarith)
  rw [round_intCast] at h1
  have h2 : ((round (q * 100) : ℤ) : ℚ) ≤ 10000 := by exact_mod_cast h1
  linarith

/-- Truncation toward zero, the behaviour of Python `int(float)`. -/
def pyTrunc (q : ℚ) : ℤ :=
  if 0 ≤ q then ⌊q⌋ else ⌈q⌉

/-- First value stored under a key in an insertion-ordered association list. -/
def lookupKey {α : Type} : List (String × α) → String → Option α
  | [], _ => none
  | (k, v) :: rest, key => if k = key then some v else lookupKey rest key

/-- Replace the value stored under an existing key, keeping its position. -/
def updateKey {α : Type} : List (String × α) → String → α → List (String × α)
  | [], _, _ => []
  | (k, v) :: rest, key, nv =>
    if k = key then (k, nv) :: rest else (k, v) :: updateKey rest key nv

/-- Python `dict.__setitem__`: update in place when the key exists, otherwise
append in insertion order. -/
def dictInsert {α : Type} (m : List (String × α)) (k : String) (v : α) :
    List (String × α) :=
  match lookupKey m k with
  | some _ => updateKey m k v
  | none => m ++ [(k, v)]

/-- Python `dict.update`: fold the new bindings into the map. -/
def dictUpdate {α : Type} (m : List (String × α)) (newer : List (String × α)) :
    List (String × α) :=
  newer.foldl (fun acc kv => dictInsert acc kv.1 kv.2) m

/-- Mirror of the `QualityStock` dataclass of
`services/quality_stocks_service.py` (metric fields; the derived fields
`quality_score`, `quality_tier` and the qualitative labels are computed by the
modelled service functions below, exactly as the loading pipeline computes
them for every stock before any filter reads them). -/
structure QualityStock where
  stock_name : String
  nse_code : String
  isin : String
  market_cap : ℚ
  roe : ℚ
  roce : ℚ
  debt_to_equity : ℚ
  interest_coverage : ℚ
  current_ratio : ℚ
  promoter_holding : ℚ
  promoter_holding_change_1y : ℚ
  eps_ttm_growth : ℚ
  operating_rev_growth_ttm : ℚ
  net_profit_ann : ℚ
  net_profit_ann_1y_ago : ℚ
  opm_ann : ℚ
  opm_ann_1y_ago : ℚ
  basic_eps_ttm : ℚ
  basic_eps_ttm_1y_ago : ℚ
  pe_ttm : Option ℚ
  industry_pe_ttm : Option ℚ
  peg_ttm : Option ℚ
  price_to_book : Option ℚ
  ev_per_ebitda_ann : Option ℚ
  durability_score : Option ℤ
  valuation_score : Option ℤ
  piotroski_score : Option ℤ
  altman_zscore : Option ℚ
  tobin_q_ratio : Option ℚ
  graham_number : Option ℚ
  eps_qtr_yoy_growth : ℚ
  basic_eps_qoq_growth : ℚ
  npm_ann : ℚ
  npm_ttm : ℚ
  basic_eps_qtr : ℚ
  basic_eps_1q_ago : ℚ
  basic_eps_2q_ago : ℚ
  net_profit_qtr : ℚ
  net_profit_1q_ago : ℚ
  net_profit_2q_ago : ℚ
  opm_qtr : ℚ
  opm_1q_ago : ℚ
  opm_qtr_4q_ago : ℚ
  promoter_holding_change_qoq : ℚ
  promoter_holding_change_2y : ℚ
  sector_pe_ttm : Option ℚ
  sector_pbv_ttm : Option ℚ
  industry_pbv_ttm : Option ℚ
  roa_ann : ℚ
  roa_ann_1y_ago : ℚ
  roe_1y_ago : ℚ
  roe_2y_ago : ℚ
  roe_3y_ago : ℚ
  roce_3y_avg : ℚ
  roce_5y_avg : ℚ
  cash_flow_return_on_assets : ℚ
  cash_flow_return_on_assets_1y_ago : ℚ
  cash_eps_ann : ℚ
  cash_eps_ann_1y_ago : ℚ
  cash_eps_1y_growth : ℚ
  working_capital_turnover : ℚ
  book_value : ℚ
  price_to_sales_ann : Option ℚ
  price_to_sales_ttm : Option ℚ
  price_to_cashflow : Option ℚ
  graham_ratio : Option ℚ
  operating_profit_ttm : ℚ
  operating_profit_ttm_1y_ago : ℚ
  operating_profit_growth_qtr_yoy : ℚ
  ebitda_ann : ℚ
  ebitda_ttm : ℚ
  ebitda_ann_margin : ℚ
  ebit_ann_margin : ℚ
  ebitda_qtr_yoy_growth : ℚ
  promoter_pledge_percentage : ℚ
  gross_npa_ratio : Option ℚ
  capital_adequacy_ratio : Option ℚ
  industry_score : Option ℤ
  sector_score : Option ℤ
  tl_checklist_positive_score : Option ℤ
  tl_checklist_negative_score : Option ℤ
  swot_strengths : Option ℤ
  swot_weakness : Option ℤ
  swot_opportunities : Option ℤ
  swot_threats : Option ℤ
  sector_roce : Option ℚ
  industry_roce : Option ℚ
  sector_roe : Option ℚ
  industry_roe : Option ℚ
  sector_peg_ttm : Option ℚ
  industry_peg_ttm : Option ℚ
  sector_net_profit_growth_qtr_qoq : Option ℚ
  sector_net_profit_growth_ann_yoy : Option ℚ
  industry_net_profit_growth_qtr_qoq : Option ℚ
  industry_net_profit_growth_ann_yoy : Option ℚ
  price_to_book_adjusted : Option ℚ
  fc_est_1q_forward_ebit_qtr : Option ℚ

namespace QualityStocksService

/-- `QualityStocksService._safe_float`: placeholder cells and parse failures
fall back to the supplied default. -/
def _safe_float (value : Option String) (default : ℚ) : ℚ :=
  match value with
  | none => default
  | some s =>
    if s = "" ∨ s = "-" then default
    else
      match pyFloat (removeCommas s) with
      | some q => q
      | none => default

/-- `QualityStocksService._safe_int`: float parse then truncation toward
zero, with the same fallbacks. -/
def _safe_int (value : Option String) (default : ℤ) : ℤ :=
  match value with
  | none => default
  | some s =>
    if s = "" ∨ s = "-" then default
    else
      match pyFloat (removeCommas s) with
      | some q => pyTrunc q
      | none => default

/-- Loop body of `_count_consecutive_positive_quarters`: each pair is
(later quarter, earlier quarter); the walk stops at the first failing pair. -/
def streakCount : List (ℚ × ℚ) → ℕ
  | [] => 0
  | (current, previous) :: rest =>
    if 0 < current ∧ 0 < previous ∧ previous < current then streakCount rest + 1
    else if 0 < current ∧ previous ≤ 0 then streakCount rest + 1
    else 0

/-- `QualityStocksService._count_consecutive_positive_quarters`. -/
def _count_consecutive_positive_quarters (s : QualityStock) : ℕ :=
  streakCount
    [(s.basic_eps_qtr, s.basic_eps_1q_ago),
     (s.basic_eps_1q_ago, s.basic_eps_2q_ago)]

/-- `QualityStocksService._assess_profit_growth_consistency`. -/
def _assess_profit_growth_consistency (s : QualityStock) : String :=
  if s.net_profit_ann ≤ 0 ∨ s.net_profit_ann_1y_ago ≤ 0 then "Negative"
  else
    let growth := (s.net_profit_ann - s.net_profit_ann_1y_ago) /
      |s.net_profit_ann_1y_ago| * 100
    let quartersPositive : ℕ :=
      (if 0 < s.net_profit_qtr then 1 else 0) +
      (if 0 < s.net_profit_1q_ago then 1 else 0) +
      (if 0 < s.net_profit_2q_ago then 1 else 0)
    if 15 < growth ∧ 2 ≤ quartersPositive then "Very Consistent"
    else if 10 < growth ∧ 2 ≤ quartersPositive then "Consistent"
    else if 0 < growth then "Moderate"
    else "Inconsistent"

/-- `QualityStocksService._assess_margin_stability`. -/
def _assess_margin_stability (s : QualityStock) : String :=
  if s.opm_ann ≤ 0 then "Negative"
  else if s.opm_ann_1y_ago < s.opm_ann then
    if s.opm_1q_ago < s.opm_qtr then "Expanding" else "Expanding (Volatile)"
  else
    let marginChange := |s.opm_ann - s.opm_ann_1y_ago| / max s.opm_ann_1y_ago 1
    if marginChange < 1/20 then "Stable"
    else if marginChange < 3/20 then "Moderately Stable"
    else "Volatile"

/-- `QualityStocksService._assess_promoter_trend`. -/
def _assess_promoter_trend (s : QualityStock) : String :=
  if 1 < s.promoter_holding_change_1y then
    if 0 < s.promoter_holding_change_qoq then "Rising (Strong)" else "Rising"
  else if 0 < s.promoter_holding_change_1y then "Rising (Moderate)"
  else if |s.promoter_holding_change_1y| < 1 then "Stable"
  else "Declining"

/-- `QualityStocksService._assess_cash_flow_quality`. -/
def _assess_cash_flow_quality (s : QualityStock) : String :=
  if 0 < s.cash_flow_return_on_assets ∧ 0 < s.cash_flow_return_on_assets_1y_ago then
    if s.cash_flow_return_on_assets_1y_ago < s.cash_flow_return_on_assets then "Improving"
    else if |s.cash_flow_return_on_assets - s.cash_flow_return_on_assets_1y_ago| < 2 then
      "Stable"
    else "Declining"
  else if 0 < s.cash_flow_return_on_assets then "Positive"
  else "Negative"

/-- `QualityStocksService._assess_roe_trend` (the chained Python comparison
`roe > roe_1y_ago > roe_2y_ago` unfolds to its two conjuncts). -/
def _assess_roe_trend (s : QualityStock) : String :=
  if s.roe_1y_ago < s.roe ∧ s.roe_2y_ago < s.roe_1y_ago ∧ s.roe_3y_ago < s.roe_2y_ago then
    "Consistently Rising"
  else if s.roe_1y_ago < s.roe then "Rising"
  else if |s.roe - s.roe_1y_ago| < 2 then "Stable"
  else "Declining"

/-- `QualityStocksService._assess_roce_consistency`. -/
def _assess_roce_consistency (s : QualityStock) : String :=
  if 0 < s.roce_3y_avg ∧ 0 < s.roce_5y_avg then
    let diff3y := |s.roce - s.roce_3y_avg|
    let diff5y := |s.roce - s.roce_5y_avg|
    if diff3y < 3 ∧ diff5y < 5 then "Very Consistent"
    else if diff3y < 5 then "Consistent"
    else if s.roce_3y_avg < s.roce then "Improving"
    else "Volatile"
  else "Insufficient Data"

end QualityStocksService

namespace QualityStocksService

/-- Python truthiness of an optional float: `None` and `0.0` are falsy. -/
def truthy (o : Option ℚ) : Prop :=
  match o with
  | none => False
  | some x => x ≠ 0

instance : DecidablePred truthy := fun o =>
  match o with
  | none => isFalse (fun h => h)
  | some x => inferInstanceAs (Decidable (x ≠ 0))

/-- Python truthiness of an optional int. -/
def truthyInt (o : Option ℤ) : Prop :=
  match o with
  | none => False
  | some x => x ≠ 0

instance : DecidablePred truthyInt := fun o =>
  match o with
  | none => isFalse (fun h => h)
  | some x => inferInstanceAs (Decidable (x ≠ 0))

/-- Rule 1 of `calculate_quality_score`: ROE ladder (0-20 points). -/
def rule1Points (s : QualityStock) : ℚ :=
  if 20 < s.roe then 20
  else if 15 < s.roe then 15
  else if 12 < s.roe then 10
  else if 8 < s.roe then 5
  else 0

/-- Rule 2: ROCE ladder (0-20 points). -/
def rule2Points (s : QualityStock) : ℚ :=
  if 25 < s.roce then 20
  else if 20 < s.roce then 15
  else if 15 < s.roce then 10
  else if 10 < s.roce then 5
  else 0

/-- Rule 3: debt/equity ladder (0-15 points), lower is better. -/
def rule3Points (s : QualityStock) : ℚ :=
  if s.debt_to_equity = 0 then 15
  else if s.debt_to_equity < 3/10 then 12
  else if s.debt_to_equity < 1/2 then 10
  else if s.debt_to_equity < 1 then 7
  else if s.debt_to_equity < 3/2 then 3
  else 0

/-- Rule 4: interest coverage ladder (0-10 points). -/
def rule4Points (s : QualityStock) : ℚ :=
  if 10 < s.interest_coverage then 10
  else if 5 < s.interest_coverage then 8
  else if 3 < s.interest_coverage then 5
  else if 3/2 < s.interest_coverage then 2
  else 0

/-- Rule 5: current ratio ladder (0-10 points). -/
def rule5Points (s : QualityStock) : ℚ :=
  if 2 < s.current_ratio then 10
  else if 3/2 < s.current_ratio then 8
  else if 6/5 < s.current_ratio then 5
  else if 1 < s.current_ratio then 2
  else 0

/-- Rule 6: promoter holding ladder plus rising-holding bonus (0-7 points). -/
def rule6Points (s : QualityStock) : ℚ :=
  (if 50 < s.promoter_holding then 5
   else if 30 < s.promoter_holding then 3
   else if 20 < s.promoter_holding then 1
   else 0) +
  (if 0 < s.promoter_holding_change_1y then 2 else 0)

/-- Rule 7: EPS TTM growth ladder (0-10 points). -/
def rule7Points (s : QualityStock) : ℚ :=
  if 20 < s.eps_ttm_growth then 10
  else if 10 < s.eps_ttm_growth then 7
  else if 5 < s.eps_ttm_growth then 4
  else if 0 < s.eps_ttm_growth then 2
  else 0

/-- Rule 8: operating revenue growth ladder (0-10 points). -/
def rule8Points (s : QualityStock) : ℚ :=
  if 20 < s.operating_rev_growth_ttm then 10
  else if 15 < s.operating_rev_growth_ttm then 8
  else if 10 < s.operating_rev_growth_ttm then 5
  else if 5 < s.operating_rev_growth_ttm then 2
  else 0

/-- Rule 9: annual profit growth ladder, only when both years positive
(0-8 points). -/
def rule9Points (s : QualityStock) : ℚ :=
  if 0 < s.net_profit_ann ∧ 0 < s.net_profit_ann_1y_ago then
    let profitGrowth := (s.net_profit_ann - s.net_profit_ann_1y_ago) /
      |s.net_profit_ann_1y_ago| * 100
    if 20 < profitGrowth then 8
    else if 10 < profitGrowth then 5
    else if 0 < profitGrowth then 2
    else 0
  else 0

/-- Rule 10: operating margin trend (0-5 points). -/
def rule10Points (s : QualityStock) : ℚ :=
  if s.opm_ann_1y_ago < s.opm_ann ∧ 15 < s.opm_ann then 5
  else if s.opm_ann_1y_ago < s.opm_ann then 3
  else if 10 < s.opm_ann then 1
  else 0

/-- Rule 11: PEG ratio ladder, only when present and positive (0-5 points). -/
def rule11Points (s : QualityStock) : ℚ :=
  match s.peg_ttm with
  | none => 0
  | some peg =>
    if peg ≠ 0 ∧ 0 < peg then
      if 7/10 ≤ peg ∧ peg ≤ 3/2 then 5
      else if 1/2 ≤ peg ∧ peg ≤ 2 then 3
      else if peg < 1/2 then 1
      else 0
    else 0

/-- Rule 12: consecutive positive quarters (0-8 points). -/
def rule12Points (s : QualityStock) : ℚ :=
  if 2 ≤ _count_consecutive_positive_quarters s then 8
  else if _count_consecutive_positive_quarters s = 1 then 4
  else if 0 < s.basic_eps_qoq_growth then 2
  else 0

/-- Fallback branch of rule 13: sector PE comparison. -/
def rule13Fallback (s : QualityStock) : ℚ :=
  match s.sector_pe_ttm with
  | none => 0
  | some spe =>
    if spe ≠ 0 ∧ 0 < spe then
      match s.pe_ttm with
      | none => 0
      | some pe =>
        if pe ≠ 0 then
          if pe / spe < 9/10 then 4
          else if pe / spe ≤ 11/10 then 2
          else 0
        else 0
    else 0

/-- Rule 13: PE versus industry PE, with sector PE fallback (0-5 points). -/
def rule13Points (s : QualityStock) : ℚ :=
  match s.pe_ttm, s.industry_pe_ttm with
  | some pe, some ipe =>
    if pe ≠ 0 ∧ ipe ≠ 0 ∧ 0 < ipe then
      if pe / ipe < 9/10 then 5
      else if pe / ipe ≤ 11/10 then 3
      else if pe / ipe ≤ 13/10 then 1
      else 0
    else rule13Fallback s
  | _, _ => rule13Fallback s

/-- Fallback branch of rule 14: industry price-to-book comparison. -/
def rule14Fallback (s : QualityStock) : ℚ :=
  match s.industry_pbv_ttm with
  | some ipbv => if ipbv ≠ 0 then (if ipbv < 2 then 2 else 0) else 0
  | none => 0

/-- Rule 14: price-to-book ladder with industry fallback (0-5 points). -/
def rule14Points (s : QualityStock) : ℚ :=
  match s.price_to_book with
  | some pb =>
    if pb ≠ 0 then
      if pb < 1 then 5
      else if pb < 2 then 3
      else if pb < 3 then 1
      else 0
    else rule14Fallback s
  | none => rule14Fallback s

/-- Rule 15: EV/EBITDA ladder (0-5 points). -/
def rule15Points (s : QualityStock) : ℚ :=
  match s.ev_per_ebitda_ann with
  | none => 0
  | some ev =>
    if ev ≠ 0 then
      if ev < 8 then 5
      else if ev < 12 then 3
      else if ev < 15 then 1
      else 0
    else 0

/-- Rule 16: promoter trend bonus (0-3 points). -/
def rule16Points (s : QualityStock) : ℚ :=
  if _assess_promoter_trend s = "Rising (Strong)" ∨ _assess_promoter_trend s = "Rising" then 3
  else if _assess_promoter_trend s = "Rising (Moderate)" then 2
  else if _assess_promoter_trend s = "Stable" then 1
  else 0

/-- Rule 17: margin stability bonus (0-3 points). -/
def rule17Points (s : QualityStock) : ℚ :=
  if _assess_margin_stability s = "Expanding" then 3
  else if _assess_margin_stability s = "Stable" then 2
  else if _assess_margin_stability s = "Moderately Stable" then 1
  else 0

/-- Rule 18: profit growth consistency bonus (0-4 points). -/
def rule18Points (s : QualityStock) : ℚ :=
  if _assess_profit_growth_consistency s = "Very Consistent" then 4
  else if _assess_profit_growth_consistency s = "Consistent" then 3
  else if _assess_profit_growth_consistency s = "Moderate" then 1
  else 0

/-- One Trendlyne index contribution of rule 19: half the score capped at 7
(a falsy score contributes nothing). -/
def tlCapped (o : Option ℤ) : ℚ :=
  match o with
  | none => 0
  | some d => if d ≠ 0 then min ((d : ℚ) / 2) 7 else 0

/-- Rule 19: Trendlyne durability and valuation scores, each capped at 7
(0-14 points when the source scores are nonnegative). -/
def rule19Points (s : QualityStock) : ℚ :=
  tlCapped s.durability_score + tlCapped s.valuation_score

/-- Rule 20: Piotroski score at face value, capped at 9. -/
def rule20Points (s : QualityStock) : ℚ :=
  match s.piotroski_score with
  | none => 0
  | some p => min (p : ℚ) 9

/-- Rule 21: Altman Z-score zones (0-6 points). -/
def rule21Points (s : QualityStock) : ℚ :=
  match s.altman_zscore with
  | none => 0
  | some z =>
    if z ≠ 0 then
      if 3 < z then 6
      else if 27/10 < z then 4
      else if 9/5 < z then 2
      else 0
    else 0

/-- Rule 22: Tobin Q ratio bands (0-5 points). -/
def rule22Points (s : QualityStock) : ℚ :=
  match s.tobin_q_ratio with
  | none => 0
  | some t =>
    if t ≠ 0 then
      if 4/5 ≤ t ∧ t ≤ 6/5 then 5
      else if 3/5 ≤ t ∧ t < 4/5 then 4
      else if 6/5 < t ∧ t ≤ 3/2 then 2
      else if 3/2 < t then 1
      else 0
    else 0

/-- Rule 23: Graham number presence and relation to market cap (0-4 points). -/
def rule23Points (s : QualityStock) : ℚ :=
  match s.graham_number with
  | none => 0
  | some g =>
    if g ≠ 0 ∧ 0 < s.market_cap then
      if 0 < g then 2 + (if s.market_cap * (1/2) < g then 2 else 0)
      else 0
    else 0

/-- Rule 24: return on assets ladder plus improvement bonus (0-6 points). -/
def rule24Points (s : QualityStock) : ℚ :=
  (if 10 < s.roa_ann then 5
   else if 7 < s.roa_ann then 4
   else if 5 < s.roa_ann then 3
   else if 3 < s.roa_ann then 1
   else 0) +
  (if s.roa_ann_1y_ago < s.roa_ann ∧ 5 < s.roa_ann then 1 else 0)

/-- Rule 25: cash-flow return on assets ladder plus improving bonus
(0-6 points). -/
def rule25Points (s : QualityStock) : ℚ :=
  (if 10 < s.cash_flow_return_on_assets then 5
   else if 7 < s.cash_flow_return_on_assets then 4
   else if 5 < s.cash_flow_return_on_assets then 3
   else if 0 < s.cash_flow_return_on_assets then 1
   else 0) +
  (if _assess_cash_flow_quality s = "Improving" then 1 else 0)

/-- Rule 26: cash EPS growth ladder (0-4 points). -/
def rule26Points (s : QualityStock) : ℚ :=
  if 20 < s.cash_eps_1y_growth then 4
  else if 10 < s.cash_eps_1y_growth then 3
  else if 5 < s.cash_eps_1y_growth then 2
  else if 0 < s.cash_eps_1y_growth then 1
  else 0

/-- Rule 27: working capital turnover ladder (0-3 points). -/
def rule27Points (s : QualityStock) : ℚ :=
  if 10 < s.working_capital_turnover then 3
  else if 5 < s.working_capital_turnover then 2
  else if 2 < s.working_capital_turnover then 1
  else 0

/-- Rule 28: operating profit TTM growth ladder, only when both TTM values
positive (0-4 points). -/
def rule28Points (s : QualityStock) : ℚ :=
  if 0 < s.operating_profit_ttm ∧ 0 < s.operating_profit_ttm_1y_ago then
    let opProfitGrowth := (s.operating_profit_ttm - s.operating_profit_ttm_1y_ago) /
      |s.operating_profit_ttm_1y_ago| * 100
    if 20 < opProfitGrowth then 4
    else if 10 < opProfitGrowth then 3
    else if 5 < opProfitGrowth then 2
    else if 0 < opProfitGrowth then 1
    else 0
  else 0

/-- Rule 29: EBITDA margin ladder plus growth bonus (0-5 points). -/
def rule29Points (s : QualityStock) : ℚ :=
  (if 25 < s.ebitda_ann_margin then 4
   else if 20 < s.ebitda_ann_margin then 3
   else if 15 < s.ebitda_ann_margin then 2
   else if 10 < s.ebitda_ann_margin then 1
   else 0) +
  (if 15 < s.ebitda_qtr_yoy_growth then 1 else 0)

/-- Fallback branch of rule 30: annual price-to-sales ladder. -/
def rule30Fallback (s : QualityStock) : ℚ :=
  match s.price_to_sales_ann with
  | some ps =>
    if ps ≠ 0 then
      if ps < 1 then 3
      else if ps < 2 then 2
      else 0
    else 0
  | none => 0

/-- Rule 30: price-to-sales ladder with annual fallback (0-3 points). -/
def rule30Points (s : QualityStock) : ℚ :=
  match s.price_to_sales_ttm with
  | some ps =>
    if ps ≠ 0 then
      if ps < 1 then 3
      else if ps < 2 then 2
      else if ps < 3 then 1
      else 0
    else rule30Fallback s
  | none => rule30Fallback s

/-- Rule 31: price-to-cashflow ladder (0-3 points). -/
def rule31Points (s : QualityStock) : ℚ :=
  match s.price_to_cashflow with
  | none => 0
  | some pc =>
    if pc ≠ 0 then
      if pc < 10 then 3
      else if pc < 15 then 2
      else if pc < 20 then 1
      else 0
    else 0

/-- Rule 32: ROCE consistency bonus (0-3 points). -/
def rule32Points (s : QualityStock) : ℚ :=
  if _assess_roce_consistency s = "Very Consistent" then 3
  else if _assess_roce_consistency s = "Consistent" then 2
  else if _assess_roce_consistency s = "Improving" then 1
  else 0

/-- Rule 33: ROE trend bonus (0-2 points). -/
def rule33Points (s : QualityStock) : ℚ :=
  if _assess_roe_trend s = "Consistently Rising" then 2
  else if _assess_roe_trend s = "Rising" then 1
  else 0

/-- Rule 34: promoter pledge (0-2 points), lower is better. -/
def rule34Points (s : QualityStock) : ℚ :=
  if s.promoter_pledge_percentage = 0 then 2
  else if s.promoter_pledge_percentage < 10 then 1
  else 0

/-- One relative-performance contribution of rule 35: a twentieth of the
score capped at 1.5. -/
def idxCapped (o : Option ℤ) : ℚ :=
  match o with
  | none => 0
  | some i => if i ≠ 0 then min ((i : ℚ) / 20) (3/2) else 0

/-- Rule 35: industry and sector scores, each capped at 1.5 (0-3 points when
the source scores are nonnegative). -/
def rule35Points (s : QualityStock) : ℚ :=
  idxCapped s.industry_score + idxCapped s.sector_score

/-- Rule 36: Trendlyne checklist net score (0-2 points). -/
def rule36Points (s : QualityStock) : ℚ :=
  match s.tl_checklist_positive_score, s.tl_checklist_negative_score with
  | some p, some n =>
    if p ≠ 0 ∧ n ≠ 0 then
      if 10 < p - n then 2
      else if 5 < p - n then 1
      else 0
    else 0
  | _, _ => 0

/-- Rule 37: bank-specific NPA and capital adequacy checks (0-3 points). -/
def rule37Points (s : QualityStock) : ℚ :=
  (match s.gross_npa_ratio with
   | none => 0
   | some npa =>
     if npa < 1 then 2
     else if npa < 2 then 1
     else 0) +
  (match s.capital_adequacy_ratio with
   | none => 0
   | some car => if car ≠ 0 then (if 15 < car then 1 else 0) else 0)

/-- The denominator accumulated by `calculate_quality_score`: every rule adds
its maximum attainable points unconditionally. -/
def maxScoreTotal : ℚ :=
  20 + 20 + 15 + 10 + 10 + 7 + 10 + 10 + 8 + 5 + 5 + 8 + 5 + 5 + 5 + 3 + 3 + 4 +
  14 + 9 + 6 + 5 + 4 + 6 + 6 + 4 + 3 + 4 + 5 + 3 + 3 + 3 + 2 + 2 + 3 + 2 + 3

/-- The numerator accumulated by `calculate_quality_score`. -/
def earnedPoints (s : QualityStock) : ℚ :=
  rule1Points s + rule2Points s + rule3Points s + rule4Points s + rule5Points s +
  rule6Points s + rule7Points s + rule8Points s + rule9Points s + rule10Points s +
  rule11Points s + rule12Points s + rule13Points s + rule14Points s + rule15Points s +
  rule16Points s + rule17Points s + rule18Points s + rule19Points s + rule20Points s +
  rule21Points s + rule22Points s + rule23Points s + rule24Points s + rule25Points s +
  rule26Points s + rule27Points s + rule28Points s + rule29Points s + rule30Points s +
  rule31Points s + rule32Points s + rule33Points s + rule34Points s + rule35Points s +
  rule36Points s + rule37Points s

/-- `QualityStocksService.calculate_quality_score`: normalize to 0-100 and
round to two decimals. -/
def calculate_quality_score (s : QualityStock) : ℚ :=
  round2 (if 0 < maxScoreTotal then earnedPoints s / maxScoreTotal * 100 else 0)

end QualityStocksService

namespace QualityStocksService

/-- The `(stock.altman_zscore is None or stock.altman_zscore > bound)` risk
check shared by the tier gates. -/
def altmanOk : ℚ → Option ℚ → Prop
  | _, none => True
  | bound, some z => bound < z

instance (bound : ℚ) (o : Option ℚ) : Decidable (altmanOk bound o) :=
  match o with
  | none => isTrue trivial
  | some z => inferInstanceAs (Decidable (bound < z))

/-- Gate conjunction of `filter_great_quality_stocks`. -/
def greatMeetsCriteria (s : QualityStock) : Prop :=
  12 < s.roe ∧
  15 < s.roce ∧
  s.debt_to_equity < 1 ∧
  3 < s.interest_coverage ∧
  6/5 < s.current_ratio ∧
  0 < s.eps_ttm_growth ∧
  10 < s.operating_rev_growth_ttm ∧
  1 ≤ _count_consecutive_positive_quarters s ∧
  _assess_profit_growth_consistency s ∈ ["Consistent", "Very Consistent", "Moderate"] ∧
  _assess_margin_stability s ∈ ["Stable", "Expanding", "Moderately Stable"] ∧
  70 ≤ calculate_quality_score s ∧
  0 < s.market_cap ∧
  5 < s.roa_ann ∧
  0 < s.cash_flow_return_on_assets ∧
  _assess_cash_flow_quality s ≠ "Negative" ∧
  s.promoter_pledge_percentage < 30 ∧
  altmanOk (9/5) s.altman_zscore

instance : DecidablePred greatMeetsCriteria := fun s => by
  unfold greatMeetsCriteria; infer_instance

/-- Gate conjunction of `filter_aggressive_quality_stocks`. -/
def aggressiveMeetsCriteria (s : QualityStock) : Prop :=
  10 < s.roe ∧
  12 < s.roce ∧
  s.debt_to_equity < 3/2 ∧
  2 < s.interest_coverage ∧
  (15 < s.eps_ttm_growth ∨ 20 < s.operating_rev_growth_ttm) ∧
  60 ≤ calculate_quality_score s ∧
  0 < s.market_cap ∧
  _assess_profit_growth_consistency s ≠ "Inconsistent" ∧
  _assess_margin_stability s ≠ "Volatile" ∧
  3 < s.roa_ann ∧
  _assess_cash_flow_quality s ≠ "Negative" ∧
  s.promoter_pledge_percentage < 40 ∧
  altmanOk (3/2) s.altman_zscore

instance : DecidablePred aggressiveMeetsCriteria := fun s => by
  unfold aggressiveMeetsCriteria; infer_instance

/-- Gate conjunction of `filter_medium_quality_stocks` (the "Good" tier). -/
def mediumMeetsCriteria (s : QualityStock) : Prop :=
  8 < s.roe ∧
  10 < s.roce ∧
  s.debt_to_equity < 2 ∧
  3/2 < s.interest_coverage ∧
  55 ≤ calculate_quality_score s ∧
  calculate_quality_score s < 70 ∧
  0 < s.market_cap ∧
  _assess_profit_growth_consistency s ≠ "Inconsistent" ∧
  _assess_margin_stability s ≠ "Volatile" ∧
  _assess_cash_flow_quality s ≠ "Negative" ∧
  (-5 < s.eps_ttm_growth ∨ 5 < s.operating_rev_growth_ttm) ∧
  s.promoter_pledge_percentage < 50

instance : DecidablePred mediumMeetsCriteria := fun s => by
  unfold mediumMeetsCriteria; infer_instance

/-- Descending order on computed quality score, the sort relation of the
Great and Medium filters. -/
def scoreDesc (a b : QualityStock) : Prop :=
  calculate_quality_score b ≤ calculate_quality_score a

instance : DecidableRel scoreDesc := fun a b =>
  inferInstanceAs (Decidable (calculate_quality_score b ≤ calculate_quality_score a))

instance : IsTotal QualityStock scoreDesc :=
  ⟨fun a b => (le_total (calculate_quality_score b) (calculate_quality_score a)).imp id id⟩

instance : IsTrans QualityStock scoreDesc :=
  ⟨fun _ _ _ hab hbc => le_trans hbc hab⟩

/-- Descending order on mean growth, the sort relation of the Aggressive
filter. -/
def growthDesc (a b : QualityStock) : Prop :=
  (b.eps_ttm_growth + b.operating_rev_growth_ttm) / 2 ≤
    (a.eps_ttm_growth + a.operating_rev_growth_ttm) / 2

instance : DecidableRel growthDesc := fun _ _ =>
  inferInstanceAs (Decidable (_ ≤ _))

instance : IsTotal QualityStock growthDesc :=
  ⟨fun a b => (le_total ((b.eps_ttm_growth + b.operating_rev_growth_ttm) / 2)
    ((a.eps_ttm_growth + a.operating_rev_growth_ttm) / 2)).imp id id⟩

instance : IsTrans QualityStock growthDesc :=
  ⟨fun _ _ _ hab hbc => le_trans hbc hab⟩

/-- `QualityStocksService.filter_great_quality_stocks` over an in-memory
collection (Python's stable sort is modelled by insertion sort; only
sortedness and membership are relied on). -/
def filter_great_quality_stocks (stocks : List QualityStock) : List QualityStock :=
  List.insertionSort scoreDesc
    (stocks.filter (fun s => decide (greatMeetsCriteria s)))

/-- `QualityStocksService.filter_aggressive_quality_stocks`. -/
def filter_aggressive_quality_stocks (stocks : List QualityStock) : List QualityStock :=
  List.insertionSort growthDesc
    (stocks.filter (fun s => decide (aggressiveMeetsCriteria s)))

/-- `QualityStocksService.filter_medium_quality_stocks`: skips stocks whose
NSE code appears in either caller-supplied exclusion list (both default to
empty in the source), then applies the Good-tier gates. -/
def filter_medium_quality_stocks (stocks exclude_great exclude_aggressive :
    List QualityStock) : List QualityStock :=
  let great_nse_codes := exclude_great.map QualityStock.nse_code
  let aggressive_nse_codes := exclude_aggressive.map QualityStock.nse_code
  List.insertionSort scoreDesc
    (stocks.filter (fun s =>
      decide (s.nse_code ∉ great_nse_codes ∧ s.nse_code ∉ aggressive_nse_codes ∧
        mediumMeetsCriteria s)))

/-- The dedup key of `load_stocks`: ISIN when non-empty, else NSE code. -/
def stockKey (s : QualityStock) : String :=
  if s.isin ≠ "" then s.isin else s.nse_code

/-- One step of the keyed dedup loop of `load_stocks` (lines 388-400): a key
already present is replaced only when the incoming stock has both Trendlyne
scores and the stored one is missing at least one of them. -/
def dedupInsert (m : List (String × QualityStock)) (s : QualityStock) :
    List (String × QualityStock) :=
  let key := stockKey s
  if key = "" then m
  else
    match lookupKey m key with
    | some existing =>
      if s.durability_score ≠ none ∧ s.valuation_score ≠ none ∧
          (existing.durability_score = none ∨ existing.valuation_score = none)
      then updateKey m key s
      else m
    | none => m ++ [(key, s)]

/-- `QualityStocksService.load_stocks` restricted to its dedup step: the
parsed stocks of all files, in order, keyed and deduplicated; the resulting
collection is the dict's values in insertion order. -/
def load_stocks (parsed : List QualityStock) : List QualityStock :=
  (parsed.foldl dedupInsert []).map Prod.snd

/-- The service's in-memory state: `load_stocks` replaces `self.stocks`
wholesale with the result parsed from the current files. -/
def load_stocks_state (parsed : List QualityStock)
    (_stocks_before : List QualityStock) : List QualityStock :=
  load_stocks parsed

end QualityStocksService

/-- Baseline instrument: every required-with-zero-default metric 0, every
optional metric absent — what `load_stocks` builds from a row of empty
cells. -/
def zeroStock : QualityStock where
  stock_name := ""
  nse_code := ""
  isin := ""
  market_cap := 0
  roe := 0
  roce := 0
  debt_to_equity := 0
  interest_coverage := 0
  current_ratio := 0
  promoter_holding := 0
  promoter_holding_change_1y := 0
  eps_ttm_growth := 0
  operating_rev_growth_ttm := 0
  net_profit_ann := 0
  net_profit_ann_1y_ago := 0
  opm_ann := 0
  opm_ann_1y_ago := 0
  basic_eps_ttm := 0
  basic_eps_ttm_1y_ago := 0
  pe_ttm := none
  industry_pe_ttm := none
  peg_ttm := none
  price_to_book := none
  ev_per_ebitda_ann := none
  durability_score := none
  valuation_score := none
  piotroski_score := none
  altman_zscore := none
  tobin_q_ratio := none
  graham_number := none
  eps_qtr_yoy_growth := 0
  basic_eps_qoq_growth := 0
  npm_ann := 0
  npm_ttm := 0
  basic_eps_qtr := 0
  basic_eps_1q_ago := 0
  basic_eps_2q_ago := 0
  net_profit_qtr := 0
  net_profit_1q_ago := 0
  net_profit_2q_ago := 0
  opm_qtr := 0
  opm_1q_ago := 0
  opm_qtr_4q_ago := 0
  promoter_holding_change_qoq := 0
  promoter_holding_change_2y := 0
  sector_pe_ttm := none
  sector_pbv_ttm := none
  industry_pbv_ttm := none
  roa_ann := 0
  roa_ann_1y_ago := 0
  roe_1y_ago := 0
  roe_2y_ago := 0
  roe_3y_ago := 0
  roce_3y_avg := 0
  roce_5y_avg := 0
  cash_flow_return_on_assets := 0
  cash_flow_return_on_assets_1y_ago := 0
  cash_eps_ann := 0
  cash_eps_ann_1y_ago := 0
  cash_eps_1y_growth := 0
  working_capital_turnover := 0
  book_value := 0
  price_to_sales_ann := none
  price_to_sales_ttm := none
  price_to_cashflow := none
  graham_ratio := none
  operating_profit_ttm := 0
  operating_profit_ttm_1y_ago := 0
  operating_profit_growth_qtr_yoy := 0
  ebitda_ann := 0
  ebitda_ttm := 0
  ebitda_ann_margin := 0
  ebit_ann_margin := 0
  ebitda_qtr_yoy_growth := 0
  promoter_pledge_percentage := 0
  gross_npa_ratio := none
  capital_adequacy_ratio := none
  industry_score := none
  sector_score := none
  tl_checklist_positive_score := none
  tl_checklist_negative_score := none
  swot_strengths := none
  swot_weakness := none
  swot_opportunities := none
  swot_threats := none
  sector_roce := none
  industry_roce := none
  sector_roe := none
  industry_roe := none
  sector_peg_ttm := none
  industry_peg_ttm := none
  sector_net_profit_growth_qtr_qoq := none
  sector_net_profit_growth_ann_yoy := none
  industry_net_profit_growth_qtr_qoq := none
  industry_net_profit_growth_ann_yoy := none
  price_to_book_adjusted := none
  fc_est_1q_forward_ebit_qtr := none

/-- A strong instrument: satisfies every Great gate and, because its EPS
growth exceeds 15, also every Aggressive gate. -/
def superStock : QualityStock :=
  { zeroStock with
    stock_name := "Super Co"
    nse_code := "SUPER"
    isin := "INE000A01001"
    market_cap := 1000
    roe := 25
    roce := 28
    debt_to_equity := 0
    interest_coverage := 15
    current_ratio := 5/2
    promoter_holding := 60
    promoter_holding_change_1y := 2
    eps_ttm_growth := 22
    operating_rev_growth_ttm := 18
    net_profit_ann := 100
    net_profit_ann_1y_ago := 80
    opm_ann := 20
    opm_ann_1y_ago := 18
    basic_eps_ttm := 10
    basic_eps_ttm_1y_ago := 8
    peg_ttm := some 1
    price_to_book := some (4/5)
    ev_per_ebitda_ann := some 6
    durability_score := some 80
    valuation_score := some 80
    piotroski_score := some 8
    altman_zscore := some (7/2)
    tobin_q_ratio := some 1
    graham_number := some 600
    basic_eps_qtr := 3
    basic_eps_1q_ago := 2
    basic_eps_2q_ago := 1
    net_profit_qtr := 30
    net_profit_1q_ago := 25
    net_profit_2q_ago := 20
    opm_qtr := 21
    opm_1q_ago := 20
    opm_qtr_4q_ago := 19
    promoter_holding_change_qoq := 1
    roa_ann := 12
    roa_ann_1y_ago := 10
    roe_1y_ago := 20
    roe_2y_ago := 18
    roe_3y_ago := 15
    roce_3y_avg := 27
    roce_5y_avg := 26
    cash_flow_return_on_assets := 12
    cash_flow_return_on_assets_1y_ago := 10
    cash_eps_1y_growth := 25
    working_capital_turnover := 12
    price_to_sales_ttm := some (4/5)
    price_to_cashflow := some 8
    operating_profit_ttm := 125
    operating_profit_ttm_1y_ago := 100
    ebitda_ann_margin := 26
    ebitda_qtr_yoy_growth := 20
    promoter_pledge_percentage := 0
    industry_score := some 40
    sector_score := some 40
    tl_checklist_positive_score := some 15
    tl_checklist_negative_score := some 2 }

/-- An instrument landing in the Good tier: solid fundamentals with a
computed quality score of 69.17, inside [55, 70). -/
def mediumStock : QualityStock :=
  { zeroStock with
    stock_name := "Middling Co"
    nse_code := "MIDDL"
    isin := "INE000B01002"
    market_cap := 500
    roe := 16
    roce := 21
    debt_to_equity := 1/5
    interest_coverage := 8
    current_ratio := 9/5
    promoter_holding := 55
    promoter_holding_change_1y := 2
    eps_ttm_growth := 12
    operating_rev_growth_ttm := 12
    net_profit_ann := 100
    net_profit_ann_1y_ago := 88
    opm_ann := 18
    opm_ann_1y_ago := 17
    peg_ttm := some 1
    durability_score := some 70
    valuation_score := some 70
    piotroski_score := some 7
    altman_zscore := some (16/5)
    tobin_q_ratio := some 1
    basic_eps_qtr := 2
    basic_eps_1q_ago := 1
    basic_eps_2q_ago := 1/2
    net_profit_qtr := 30
    net_profit_1q_ago := 25
    net_profit_2q_ago := 20
    opm_qtr := 18
    opm_1q_ago := 35/2
    promoter_holding_change_qoq := 1/2
    roa_ann := 8
    roa_ann_1y_ago := 7
    roe_1y_ago := 15
    roe_2y_ago := 31/2
    roce_3y_avg := 21
    roce_5y_avg := 21
    cash_flow_return_on_assets := 8
    cash_flow_return_on_assets_1y_ago := 5
    cash_eps_1y_growth := 12
    working_capital_turnover := 1
    price_to_sales_ttm := some (3/2)
    operating_profit_ttm := 112
    operating_profit_ttm_1y_ago := 100
    ebitda_ann_margin := 18
    ebitda_qtr_yoy_growth := 16
    promoter_pledge_percentage := 20 }

/-- An adversarial instrument: a large negative Piotroski score drives the
composite quality score below zero. -/
def badStock : QualityStock :=
  { zeroStock with piotroski_score := some (-10000) }

/-- Mirror of the `TrendlyneStock` pydantic model of
`services/trendlyne_stocks_service.py`.  The `last_updated` timestamp is
wall-clock metadata outside every claim and is not modelled. -/
structure TrendlyneStock where
  stock : String
  nse_code : Option String
  bse_code : Option String
  isin : Option String
  data : List (String × String)
  source_files : List String

namespace TrendlyneStocksService

/-- A raw CSV row: header cell mapped to raw cell text, in column order. -/
def Row : Type := List (String × String)

/-- Strip every character of `set` from both ends, Python `str.strip(chars)`. -/
def stripChars (set : List Char) (s : String) : String :=
  ⟨((s.data.dropWhile (fun c => c ∈ set)).reverse.dropWhile (fun c => c ∈ set)).reverse⟩

/-- Header/key cleaning of `_process_csv_rows`:
`key.strip().strip(BOM).strip(QUOTE).strip(APOSTROPHE)`. -/
def cleanKey (k : String) : String :=
  stripChars ['\''] (stripChars ['"'] (stripChars ['\uFEFF'] (pyStrip k)))

/-- The quote-removal step of `_clean_value`:
`value_str[1:-1]` when the string both starts and ends with `"`. -/
def stripQuotes (s : List Char) : List Char :=
  if s.head? = some '"' ∧ s.getLast? = some '"' then (s.drop 1).dropLast else s

/-- `TrendlyneStocksService._clean_value`: strip whitespace, remove one pair
of surrounding double quotes, and drop empty or `-` placeholder cells. -/
def _clean_value (value : String) : Option String :=
  let s := stripQuotes (pyTrimChars value.data)
  if s = [] ∨ s = ['-'] then none else some ⟨s⟩

/-- `cleaned_row`: every key cleaned, later duplicates overwriting earlier
ones as in a Python dict comprehension. -/
def cleanedRow (row : Row) : Row :=
  row.foldl (fun acc kv => dictInsert acc (cleanKey kv.1) kv.2) []

/-- `row.get(key, "")` on a cleaned row. -/
def rowGetD (row : Row) (key : String) : String :=
  (lookupKey row key).getD ""

/-- `TrendlyneStocksService._get_stock_key`: prefer ISIN, then NSE code,
then BSE code, upper-cased with a scheme tag; `none` when all are blank. -/
def _get_stock_key (row : Row) : Option String :=
  let isin := pyStrip (rowGetD row "ISIN")
  let nse_code := pyStrip (rowGetD row "NSE Code")
  let bse_code := pyStrip (rowGetD row "BSE Code")
  if isin ≠ "" then some ("ISIN:" ++ pyToUpper isin)
  else if nse_code ≠ "" then some ("NSE:" ++ pyToUpper nse_code)
  else if bse_code ≠ "" then some ("BSE:" ++ pyToUpper bse_code)
  else none

/-- The non-core columns kept out of the open `data` map. -/
def coreFields : List String := ["Stock", "NSE Code", "BSE Code", "ISIN", "Sl No"]

/-- The `data` dictionary built for one row: every non-core column whose
cleaned value survives. -/
def rowData (row : Row) : List (String × String) :=
  row.foldl
    (fun acc kv =>
      if kv.1 ∈ coreFields then acc
      else
        match _clean_value kv.2 with
        | none => acc
        | some cv => dictInsert acc kv.1 cv)
    []

/-- Keep an `Option` core field, filling it only when currently missing
(`if not existing.field and new_value:`). -/
def fillCore (existing incoming : Option String) : Option String :=
  match existing, incoming with
  | none, some v => some v
  | e, _ => e

/-- Python `set.add` on a list model of a set. -/
def addFile (files : List String) (name : String) : List String :=
  if name ∈ files then files else files ++ [name]

/-- One iteration of the row loop of `_process_csv_rows`: skip keyless or
nameless rows, then merge into an existing stock (core fields filled when
missing, `data` updated with the newer bindings, source file recorded) or
append a new one. -/
def processRow (file_name : String) (stocks : List (String × TrendlyneStock))
    (rawRow : Row) : List (String × TrendlyneStock) :=
  let row := cleanedRow rawRow
  match _get_stock_key row with
  | none => stocks
  | some stock_key =>
    match _clean_value (rowGetD row "Stock") with
    | none => stocks
    | some stock_name =>
      let nse_code := _clean_value (rowGetD row "NSE Code")
      let bse_code := _clean_value (rowGetD row "BSE Code")
      let isin := _clean_value (rowGetD row "ISIN")
      let data := rowData row
      match lookupKey stocks stock_key with
      | some existing =>
        updateKey stocks stock_key
          { existing with
            nse_code := fillCore existing.nse_code nse_code
            bse_code := fillCore existing.bse_code bse_code
            isin := fillCore existing.isin isin
            data := dictUpdate existing.data data
            source_files := addFile existing.source_files file_name }
      | none =>
        stocks ++ [(stock_key,
          { stock := stock_name
            nse_code := nse_code
            bse_code := bse_code
            isin := isin
            data := data
            source_files := [file_name] })]

/-- `TrendlyneStocksService._process_csv_rows`. -/
def _process_csv_rows (rows : List Row) (file_name : String)
    (stocks : List (String × TrendlyneStock)) : List (String × TrendlyneStock) :=
  rows.foldl (processRow file_name) stocks

/-- In-memory state of the service: keyed stocks plus the loaded-file set. -/
structure TLState where
  stocks : List (String × TrendlyneStock)
  loadedFiles : List String

/-- The freshly constructed service: nothing loaded. -/
def initialState : TLState where
  stocks := []
  loadedFiles := []

/-- A source file on disk: its name and parsed rows. -/
def CSVFile : Type := String × List Row

/-- One file iteration of `load_all_files`: skip an already-loaded name
unless `force_reload`, otherwise process its rows and record the name. -/
def loadStep (force_reload : Bool) (acc : TLState × ℕ) (f : CSVFile) :
    TLState × ℕ :=
  if ¬ force_reload ∧ f.1 ∈ acc.1.loadedFiles then acc
  else
    (⟨_process_csv_rows f.2 f.1 acc.1.stocks, addFile acc.1.loadedFiles f.1⟩,
      acc.2 + 1)

/-- `TrendlyneStocksService.load_all_files`: iterate the discovered files in
order, skipping already-loaded names unless `force_reload`; returns the new
state and the number of files loaded.  (File-level I/O errors, which merely
skip a file, are outside the model.) -/
def load_all_files (force_reload : Bool) (st : TLState) (files : List CSVFile) :
    TLState × ℕ :=
  files.foldl (loadStep force_reload) (st, 0)

/-- The record returned by `refresh_data`. -/
structure RefreshReport where
  files_loaded : ℕ
  stocks_before : ℕ
  stocks_after : ℕ
  stocks_added : ℤ
  total_files_processed : ℕ
  deriving DecidableEq, Repr

/-- `TrendlyneStocksService.refresh_data`: reload every current file with
`force_reload=True` into the existing state and report counts. -/
def refresh_data (st : TLState) (files : List CSVFile) : RefreshReport × TLState :=
  let old_count := st.stocks.length
  let loaded := load_all_files true st files
  let new_count := loaded.1.stocks.length
  ({ files_loaded := loaded.2
     stocks_before := old_count
     stocks_after := new_count
     stocks_added := (new_count : ℤ) - (old_count : ℤ)
     total_files_processed := loaded.1.loadedFiles.length },
   loaded.1)

end TrendlyneStocksService

namespace TrendlyneQualityService

/-- Python truthiness of an optional string: `None` and `""` are falsy. -/
def truthyStr (o : Option String) : Bool :=
  match o with
  | none => false
  | some s => s ≠ ""

/-- `TrendlyneQualityService._get_value` with a numeric default: look up the
open data map, coerce with `_safe_float`, fall back to the default. -/
def _get_value (s : TrendlyneStock) (key : String) (default : ℚ) : ℚ :=
  match lookupKey s.data key with
  | none => default
  | some v =>
    if v = "" ∨ v = "-" then default
    else
      match pyFloat (removeCommas v) with
      | some q => q
      | none => default

/-- `_get_value`/`_safe_float` with default `None`. -/
def _get_value_opt (s : TrendlyneStock) (key : String) : Option ℚ :=
  match lookupKey s.data key with
  | none => none
  | some v =>
    if v = "" ∨ v = "-" then none
    else pyFloat (removeCommas v)

/-- `TrendlyneQualityService._check_promoter_holding_stable`. -/
def _check_promoter_holding_stable (s : TrendlyneStock) : Prop :=
  -1 ≤ _get_value s "Promoter holding change QoQ %" 0 ∧
    _get_value s "Promoter holding change QoQ %" 0 ≤ 10

instance : DecidablePred _check_promoter_holding_stable := fun s => by
  unfold _check_promoter_holding_stable; infer_instance

/-- Count of positive recent EPS growth figures in `_check_positive_quarters`. -/
def positiveQuartersCount (s : TrendlyneStock) : ℕ :=
  (if 0 < _get_value s "Basic EPS QoQ Growth %" 0 then 1 else 0) +
  (if 0 < _get_value s "EPS Qtr YoY Growth %" 0 then 1 else 0)

/-- `TrendlyneQualityService._check_profit_growth_consistent`. -/
def _check_profit_growth_consistent (s : TrendlyneStock) : Prop :=
  2 ≤ (if 0 < _get_value s "Net Profit 3Y Growth %" 0 then 1 else 0) +
      (if 0 < _get_value s "Net Profit 5Y Growth %" 0 then 1 else 0) +
      (if 0 < _get_value s "Net Profit QoQ Growth %" 0 then (1 : ℕ) else 0)

instance : DecidablePred _check_profit_growth_consistent := fun s => by
  unfold _check_profit_growth_consistent; infer_instance

/-- `TrendlyneQualityService._check_margin_stable`. -/
def _check_margin_stable (s : TrendlyneStock) : Prop :=
  let opm_ann := _get_value s "OPM Ann  %" 0
  let opm_ttm := _get_value s "OPM TTM %" 0
  if 0 < opm_ann ∧ 0 < opm_ttm then
    |opm_ann - opm_ttm| ≤ 5 ∨ opm_ann ≤ opm_ttm
  else 0 < opm_ann ∨ 0 < opm_ttm

instance : DecidablePred _check_margin_stable := fun s => by
  unfold _check_margin_stable
  infer_instance

/-- `TrendlyneQualityService._check_eps_trend_rising`. -/
def _check_eps_trend_rising (s : TrendlyneStock) : Prop :=
  0 < _get_value s "EPS TTM Growth %" 0

instance : DecidablePred _check_eps_trend_rising := fun s => by
  unfold _check_eps_trend_rising; infer_instance

/-- `TrendlyneQualityService._check_sales_growth`. -/
def _check_sales_growth (s : TrendlyneStock) : Prop :=
  10 < _get_value s "Net Profit 3Y Growth %" 0 ∨
    10 < _get_value s "Net Profit QoQ Growth %" 0

instance : DecidablePred _check_sales_growth := fun s => by
  unfold _check_sales_growth; infer_instance

/-- The `debt_equity` read with its 999 missing-sentinel default. -/
def debtEquity (s : TrendlyneStock) : ℚ :=
  _get_value s "Total Debt to Total Equity Ann" 999

/-- The current ratio with its TTM fallback when the annual figure is 0. -/
def currentRatio (s : TrendlyneStock) : ℚ :=
  let cr := _get_value s "Current Ratio Ann" 0
  if cr = 0 then _get_value s "Current Ratio TTM" 0 else cr

/-- `TrendlyneQualityService._calculate_quality_score`: core ladders, the two
Trendlyne indices scaled to 10 points each, growth ladders, capped at 100. -/
def _calculate_quality_score (s : TrendlyneStock) : ℚ :=
  let roe := _get_value s "ROE Ann  %" 0
  let roce := _get_value s "ROCE Ann  %" 0
  let de := debtEquity s
  let ic := _get_value s "Interest Coverage Ratio Ann" 0
  let cr := currentRatio s
  let score :=
    (if 20 < roe then 15 else if 15 < roe then 12 else if 12 < roe then 10
     else if 8 < roe then 5 else 0) +
    (if 25 < roce then 15 else if 20 < roce then 12 else if 15 < roce then 10
     else if 10 < roce then 5 else 0) +
    (if de = 0 then 10 else if de < 3/10 then 8 else if de < 1/2 then 6
     else if de < 1 then 4 else 0) +
    (if 10 < ic then 8 else if 5 < ic then 6 else if 3 < ic then 4 else 0) +
    (if 2 < cr then 7 else if 3/2 < cr then 5 else if 6/5 < cr then 3 else 0) +
    (match _get_value_opt s "Durability Score" with
     | none => 0
     | some d => d / 100 * 10) +
    (match _get_value_opt s "Valuation Score" with
     | none => 0
     | some v => v / 100 * 10) +
    (let g := _get_value s "EPS TTM Growth %" 0
     if 20 < g then 10 else if 10 < g then 7 else if 0 < g then 4 else 0) +
    (let g := _get_value s "Net Profit 3Y Growth %" 0
     if 20 < g then 10 else if 10 < g then 7 else if 0 < g then 4 else 0)
  min score 100

/-- Gate conjunction of `TrendlyneQualityService.filter_great_quality_stocks`. -/
def greatMeets (s : TrendlyneStock) : Prop :=
  12 < _get_value s "ROE Ann  %" 0 ∧
  15 < _get_value s "ROCE Ann  %" 0 ∧
  debtEquity s < 1 ∧
  3 < _get_value s "Interest Coverage Ratio Ann" 0 ∧
  6/5 < currentRatio s ∧
  _check_promoter_holding_stable s ∧
  1 ≤ positiveQuartersCount s ∧
  _check_sales_growth s ∧
  _check_profit_growth_consistent s ∧
  _check_margin_stable s ∧
  _check_eps_trend_rising s

instance : DecidablePred greatMeets := fun s => by
  unfold greatMeets; infer_instance

/-- `TrendlyneQualityService._get_stock_key`. -/
def _get_stock_key (s : TrendlyneStock) : String :=
  if truthyStr s.isin then "ISIN:" ++ pyToUpper (s.isin.getD "")
  else if truthyStr s.nse_code then "NSE:" ++ pyToUpper (s.nse_code.getD "")
  else if truthyStr s.bse_code then "BSE:" ++ pyToUpper (s.bse_code.getD "")
  else "STOCK:" ++ pyToUpper s.stock

/-- Gate of `TrendlyneQualityService.filter_medium_quality_stocks` (the key
exclusion against the Great tier is applied by the filter itself). -/
def mediumMeets (s : TrendlyneStock) : Prop :=
  let roe := _get_value s "ROE Ann  %" 0
  let roce := _get_value s "ROCE Ann  %" 0
  let core_passed : ℕ :=
    (if 23/2 < roe then 1 else 0) +
    (if 14 < roce then 1 else 0) +
    (if debtEquity s < 11/10 then 1 else 0) +
    (if 14/5 < _get_value s "Interest Coverage Ratio Ann" 0 then 1 else 0) +
    (if 23/20 < currentRatio s then 1 else 0) +
    (if _check_promoter_holding_stable s then 1 else 0)
  let two_quarters := 2 ≤ positiveQuartersCount s
  let positive_quarters := 1 ≤ positiveQuartersCount s
  let has_strong_core := 5 ≤ core_passed
  let has_exceptional_fundamentals :=
    4 ≤ core_passed ∧ (14 < roe ∨ 17 < roce) ∧ two_quarters ∧
      _check_profit_growth_consistent s ∧ _check_margin_stable s
  (has_strong_core ∧ (two_quarters ∨ (positive_quarters ∧
    _check_profit_growth_consistent s ∧ _check_margin_stable s))) ∨
    has_exceptional_fundamentals

instance : DecidablePred mediumMeets := fun s => by
  unfold mediumMeets
  infer_instance

/-- Descending computed-score order, the sort relation of the tier filters. -/
def tqScoreDesc (a b : TrendlyneStock) : Prop :=
  _calculate_quality_score b ≤ _calculate_quality_score a

instance : DecidableRel tqScoreDesc := fun _ _ =>
  inferInstanceAs (Decidable (_ ≤ _))

instance : IsTotal TrendlyneStock tqScoreDesc :=
  ⟨fun a b => (le_total (_calculate_quality_score b) (_calculate_quality_score a)).imp id id⟩

instance : IsTrans TrendlyneStock tqScoreDesc :=
  ⟨fun _ _ _ hab hbc => le_trans hbc hab⟩

/-- `TrendlyneQualityService.filter_great_quality_stocks` (the
`QualityFilteredStock` wrapper copies the identity fields unchanged, so the
underlying stocks stand in for the wrapped results). -/
def filter_great_quality_stocks (stocks : List TrendlyneStock) : List TrendlyneStock :=
  List.insertionSort tqScoreDesc (stocks.filter (fun s => decide (greatMeets s)))

/-- `TrendlyneQualityService.filter_medium_quality_stocks`: skips every stock
whose key is already in the Great tier, then applies the Medium gates. -/
def filter_medium_quality_stocks (stocks : List TrendlyneStock) : List TrendlyneStock :=
  let great_stock_keys := (filter_great_quality_stocks stocks).map _get_stock_key
  List.insertionSort tqScoreDesc
    (stocks.filter (fun s =>
      decide (_get_stock_key s ∉ great_stock_keys ∧ mediumMeets s)))

end TrendlyneQualityService

namespace QualityStocksService

/-- Lower-bound check of `filter_by_durability_valuation`: a `None` bound
imposes no constraint. -/
def boundOkLow : Option ℤ → ℤ → Prop
  | none, _ => True
  | some m, d => m ≤ d

instance : ∀ (b : Option ℤ) (d : ℤ), Decidable (boundOkLow b d)
  | none, _ => isTrue trivial
  | some m, d => inferInstanceAs (Decidable (m ≤ d))

/-- Upper-bound check of `filter_by_durability_valuation`. -/
def boundOkHigh : Option ℤ → ℤ → Prop
  | none, _ => True
  | some m, d => d ≤ m

instance : ∀ (b : Option ℤ) (d : ℤ), Decidable (boundOkHigh b d)
  | none, _ => isTrue trivial
  | some m, d => inferInstanceAs (Decidable (d ≤ m))

/-- `durability_ok` of `filter_by_durability_valuation`: a missing score
fails outright, a present one must satisfy both bounds. -/
def durabilityOk (min_durability max_durability : Option ℤ) (s : QualityStock) : Prop :=
  match s.durability_score with
  | none => False
  | some d => boundOkLow min_durability d ∧ boundOkHigh max_durability d

instance (lo hi : Option ℤ) : DecidablePred (durabilityOk lo hi) := fun s =>
  match hs : s.durability_score with
  | none => isFalse (by unfold durabilityOk; rw [hs]; exact fun h => h)
  | some d => by unfold durabilityOk; rw [hs]; infer_instance

/-- `valuation_ok` of `filter_by_durability_valuation`. -/
def valuationOk (min_valuation max_valuation : Option ℤ) (s : QualityStock) : Prop :=
  match s.valuation_score with
  | none => False
  | some v => boundOkLow min_valuation v ∧ boundOkHigh max_valuation v

instance (lo hi : Option ℤ) : DecidablePred (valuationOk lo hi) := fun s =>
  match hs : s.valuation_score with
  | none => isFalse (by unfold valuationOk; rw [hs]; exact fun h => h)
  | some v => by unfold valuationOk; rw [hs]; infer_instance

/-- The sort key of `filter_by_durability_valuation`:
`(durability or 0) + (valuation or 0)`, descending. -/
def dvSumDesc (a b : QualityStock) : Prop :=
  b.durability_score.getD 0 + b.valuation_score.getD 0 ≤
    a.durability_score.getD 0 + a.valuation_score.getD 0

instance : DecidableRel dvSumDesc := fun _ _ =>
  inferInstanceAs (Decidable (_ ≤ _))

instance : IsTotal QualityStock dvSumDesc :=
  ⟨fun a b => (le_total (b.durability_score.getD 0 + b.valuation_score.getD 0)
    (a.durability_score.getD 0 + a.valuation_score.getD 0)).imp id id⟩

instance : IsTrans QualityStock dvSumDesc :=
  ⟨fun _ _ _ hab hbc => le_trans hbc hab⟩

/-- `QualityStocksService.filter_by_durability_valuation`: keep exactly the
stocks passing both score checks, sorted by combined score descending. -/
def filter_by_durability_valuation (min_durability max_durability
    min_valuation max_valuation : Option ℤ) (stocks : List QualityStock) :
    List QualityStock :=
  List.insertionSort dvSumDesc
    (stocks.filter (fun s =>
      decide (durabilityOk min_durability max_durability s ∧
        valuationOk min_valuation max_valuation s)))

end QualityStocksService

/-- `TrendlyneQualityService._safe_float` itself (`_get_value` above inlines
it at its two call shapes); the default may be `None`. -/
def TrendlyneQualityService._safe_float (value : Option String)
    (default : Option ℚ) : Option ℚ :=
  match value with
  | none => default
  | some s =>
    if s = "" ∨ s = "-" then default
    else
      match pyFloat (removeCommas s) with
      | some q => some q
      | none => default

theorem lookupKey_updateKey_self {α : Type} (m : List (String × α)) (k : String)
    (v : α) (h : (lookupKey m k).isSome) :
    lookupKey (updateKey m k v) k = some v := by
  induction m with
  | nil => simp [lookupKey] at h
  | cons kv rest ih =>
    by_cases hk : kv.1 = k
    · simp [lookupKey, updateKey, hk]
    · simp only [lookupKey, updateKey, hk, if_false] at h ⊢
      exact ih h

theorem lookupKey_updateKey_ne {α : Type} (m : List (String × α)) (k k2 : String)
    (v : α) (h : k2 ≠ k) :
    lookupKey (updateKey m k v) k2 = lookupKey m k2 := by
  induction m with
  | nil => rfl
  | cons kv rest ih =>
    by_cases hk : kv.1 = k
    · simp [lookupKey, updateKey, hk, Ne.symm h]
    · simp only [updateKey, hk, if_false, lookupKey]
      by_cases h2 : kv.1 = k2
      · simp [h2]
      · simp [h2, ih]

theorem lookupKey_append {α : Type} (m m2 : List (String × α)) (k : String) :
    lookupKey (m ++ m2) k =
      match lookupKey m k with
      | some v => some v
      | none => lookupKey m2 k := by
  induction m with
  | nil => simp [lookupKey]
  | cons kv rest ih =>
    by_cases hk : kv.1 = k
    · simp [lookupKey, hk]
    · simp [lookupKey, hk, ih]

theorem lookupKey_dictInsert_self {α : Type} (m : List (String × α)) (k : String)
    (v : α) : lookupKey (dictInsert m k v) k = some v := by
  unfold dictInsert
  cases hm : lookupKey m k with
  | some w => exact lookupKey_updateKey_self m k v (by simp [hm])
  | none => simp [lookupKey_append, hm, lookupKey]

theorem lookupKey_dictInsert_ne {α : Type} (m : List (String × α)) (k k2 : String)
    (v : α) (h : k2 ≠ k) :
    lookupKey (dictInsert m k v) k2 = lookupKey m k2 := by
  unfold dictInsert
  cases hm : lookupKey m k with
  | some w => exact lookupKey_updateKey_ne m k k2 v h
  | none =>
    rw [lookupKey_append]
    cases h2 : lookupKey m k2 with
    | some w => rfl
    | none => simp [lookupKey, Ne.symm h]

theorem isSome_lookupKey_dictInsert {α : Type} (m : List (String × α))
    (k k2 : String) (v : α) (h : (lookupKey m k2).isSome) :
    (lookupKey (dictInsert m k v) k2).isSome := by
  by_cases hk : k2 = k
  · subst hk; simp [lookupKey_dictInsert_self]
  · rw [lookupKey_dictInsert_ne m k k2 v hk]; exact h

theorem lookupKey_dictUpdate_of_none {α : Type} (m newer : List (String × α))
    (k : String) (h : lookupKey newer k = none) :
    lookupKey (dictUpdate m newer) k = lookupKey m k := by
  induction newer generalizing m with
  | nil => rfl
  | cons kv rest ih =>
    simp only [lookupKey] at h
    by_cases hk : kv.1 = k
    · simp [hk] at h
    · simp only [hk, if_false] at h
      simp only [dictUpdate, List.foldl_cons]
      have := ih (dictInsert m kv.1 kv.2) h
      simp only [dictUpdate] at this
      rw [this, lookupKey_dictInsert_ne m kv.1 k kv.2 (fun he => hk he.symm)]

/-- Keys with no duplicates, the shape every freshly built dict has. -/
def NoDupKeys {α : Type} (m : List (String × α)) : Prop :=
  (m.map Prod.fst).Nodup

theorem keys_updateKey {α : Type} (m : List (String × α)) (k : String) (v : α) :
    (updateKey m k v).map Prod.fst = m.map Prod.fst := by
  induction m with
  | nil => rfl
  | cons kv rest ih =>
    by_cases hk : kv.1 = k
    · simp [updateKey, hk]
    · simp [updateKey, hk, ih]

theorem lookupKey_eq_none_of_not_mem {α : Type} (m : List (String × α))
    (k : String) (h : k ∉ m.map Prod.fst) : lookupKey m k = none := by
  induction m with
  | nil => rfl
  | cons kv rest ih =>
    simp only [List.map_cons, List.mem_cons, not_or] at h
    simp only [lookupKey]
    rw [if_neg (Ne.symm h.1)]
    exact ih h.2

theorem not_mem_keys_of_lookupKey_eq_none {α : Type} (m : List (String × α))
    (k : String) (h : lookupKey m k = none) : k ∉ m.map Prod.fst := by
  induction m with
  | nil => simp
  | cons kv rest ih =>
    simp only [lookupKey] at h
    by_cases hk : kv.1 = k
    · simp [hk] at h
    · simp only [hk, if_false] at h
      simp only [List.map_cons, List.mem_cons]
      push_neg
      exact ⟨fun he => hk he.symm, ih h⟩

theorem noDupKeys_dictInsert {α : Type} (m : List (String × α)) (k : String)
    (v : α) (h : NoDupKeys m) : NoDupKeys (dictInsert m k v) := by
  unfold dictInsert
  cases hm : lookupKey m k with
  | some w => unfold NoDupKeys; rw [keys_updateKey]; exact h
  | none =>
    unfold NoDupKeys at h ⊢
    rw [List.map_append, List.map_cons, List.map_nil, List.nodup_append]
    refine ⟨h, List.nodup_singleton k, ?_⟩
    rw [List.disjoint_singleton]
    exact not_mem_keys_of_lookupKey_eq_none m k hm

theorem lookupKey_dictUpdate_of_some {α : Type} (m newer : List (String × α))
    (k : String) (v : α) (hnd : NoDupKeys newer)
    (h : lookupKey newer k = some v) :
    lookupKey (dictUpdate m newer) k = some v := by
  induction newer generalizing m with
  | nil => simp [lookupKey] at h
  | cons kv rest ih =>
    simp only [lookupKey] at h
    unfold NoDupKeys at hnd
    simp only [List.map_cons, List.nodup_cons] at hnd
    by_cases hk : kv.1 = k
    · simp only [hk, if_true] at h
      subst hk
      have hnone : lookupKey rest kv.1 = none :=
        lookupKey_eq_none_of_not_mem rest kv.1 hnd.1
      simp only [dictUpdate, List.foldl_cons]
      have := lookupKey_dictUpdate_of_none (dictInsert m kv.1 kv.2) rest kv.1 hnone
      simp only [dictUpdate] at this
      rw [this, lookupKey_dictInsert_self, h]
    · simp only [hk, if_false] at h
      simp only [dictUpdate, List.foldl_cons]
      have := ih (dictInsert m kv.1 kv.2) hnd.2 h
      simpa only [dictUpdate] using this

/-- The claim's description of one streak pair: the later quarter's EPS is
positive and either exceeds the earlier quarter's EPS or the earlier
quarter's EPS is non-positive. -/
def specStreakPairOk (later earlier : ℚ) : Prop :=
  0 < later ∧ (earlier < later ∨ earlier ≤ 0)

instance (later earlier : ℚ) : Decidable (specStreakPairOk later earlier) := by
  unfold specStreakPairOk; infer_instance

/-- The claim's description of the whole walk: a short-circuiting streak over
exactly the two pairs (current vs 1-quarter-ago, 1-quarter-ago vs
2-quarters-ago). -/
def specConsecutivePositiveQuarters (s : QualityStock) : ℕ :=
  if specStreakPairOk s.basic_eps_qtr s.basic_eps_1q_ago then
    if specStreakPairOk s.basic_eps_1q_ago s.basic_eps_2q_ago then 2 else 1
  else 0

theorem streakCount_cons (c p : ℚ) (rest : List (ℚ × ℚ)) :
    QualityStocksService.streakCount ((c, p) :: rest) =
      if specStreakPairOk c p then QualityStocksService.streakCount rest + 1 else 0 := by
  unfold QualityStocksService.streakCount specStreakPairOk
  by_cases h1 : 0 < c
  · by_cases h2 : 0 < p
    · by_cases h3 : p < c
      · rw [if_pos ⟨h1, h2, h3⟩, if_pos ⟨h1, Or.inl h3⟩]
        rcases rest with _ | ⟨⟨a, b⟩, tl⟩ <;> rfl
      · have hA1 : ¬(0 < c ∧ 0 < p ∧ p < c) := fun h => h3 h.2.2
        have hA2 : ¬(0 < c ∧ p ≤ 0) := fun h => absurd h.2 (not_le.mpr h2)
        have hB : ¬(0 < c ∧ (p < c ∨ p ≤ 0)) := by
          rintro ⟨-, hpc | hp⟩
          · exact h3 hpc
          · exact absurd hp (not_le.mpr h2)
        rw [if_neg hA1, if_neg hA2, if_neg hB]
    · have hp : p ≤ 0 := le_of_not_lt h2
      have hA1 : ¬(0 < c ∧ 0 < p ∧ p < c) := fun h => h2 h.2.1
      rw [if_neg hA1, if_pos ⟨h1, hp⟩, if_pos ⟨h1, Or.inr hp⟩]
      rcases rest with _ | ⟨⟨a, b⟩, tl⟩ <;> rfl
  · have hA1 : ¬(0 < c ∧ 0 < p ∧ p < c) := fun h => h1 h.1
    have hA2 : ¬(0 < c ∧ p ≤ 0) := fun h => h1 h.1
    have hB : ¬(0 < c ∧ (p < c ∨ p ≤ 0)) := fun h => h1 h.1
    rw [if_neg hA1, if_neg hA2, if_neg hB]

/-- C6 (confirmed): `_count_consecutive_positive_quarters` returns a value in
{0, 1, 2} and is exactly the claim's short-circuiting two-pair streak: a pair
counts when the later quarter's EPS is positive and either exceeds the
earlier quarter's EPS or the earlier quarter's EPS is non-positive, and the
walk stops at the first failing pair. -/
theorem count_consecutive_positive_quarters_is_two_pair_streak :
    ∀ s : QualityStock,
      QualityStocksService._count_consecutive_positive_quarters s =
        specConsecutivePositiveQuarters s ∧
      QualityStocksService._count_consecutive_positive_quarters s ≤ 2 := by
  intro s
  unfold QualityStocksService._count_consecutive_positive_quarters
    specConsecutivePositiveQuarters
  rw [streakCount_cons, streakCount_cons]
  by_cases h1 : specStreakPairOk s.basic_eps_qtr s.basic_eps_1q_ago <;>
    by_cases h2 : specStreakPairOk s.basic_eps_1q_ago s.basic_eps_2q_ago <;>
    simp [h1, h2, QualityStocksService.streakCount]

/-- C5 (confirmed): both `_safe_float` coercions return the supplied default
unchanged on a missing cell, on `""`, `"-"`, `"N/A"`, `"n/a"`, `"None"`, and
on every string the float parser rejects; they never raise (they are total
functions). -/
theorem safe_float_placeholder_and_unparsable_defaults :
    (∀ d : ℚ,
      QualityStocksService._safe_float none d = d ∧
      QualityStocksService._safe_float (some "") d = d ∧
      QualityStocksService._safe_float (some "-") d = d ∧
      QualityStocksService._safe_float (some "N/A") d = d ∧
      QualityStocksService._safe_float (some "n/a") d = d ∧
      QualityStocksService._safe_float (some "None") d = d ∧
      ∀ s : String, pyFloat (removeCommas s) = none →
        QualityStocksService._safe_float (some s) d = d) ∧
    (∀ d : Option ℚ,
      TrendlyneQualityService._safe_float none d = d ∧
      TrendlyneQualityService._safe_float (some "") d = d ∧
      TrendlyneQualityService._safe_float (some "-") d = d ∧
      TrendlyneQualityService._safe_float (some "N/A") d = d ∧
      TrendlyneQualityService._safe_float (some "n/a") d = d ∧
      TrendlyneQualityService._safe_float (some "None") d = d ∧
      ∀ s : String, pyFloat (removeCommas s) = none →
        TrendlyneQualityService._safe_float (some s) d = d) := by
  have hna : pyFloat (removeCommas "N/A") = none := by decide
  have hnal : pyFloat (removeCommas "n/a") = none := by decide
  have hnone : pyFloat (removeCommas "None") = none := by decide
  constructor
  · intro d
    refine ⟨rfl, by simp [QualityStocksService._safe_float],
      by simp [QualityStocksService._safe_float], ?_, ?_, ?_, ?_⟩
    · simp [QualityStocksService._safe_float, hna]
    · simp [QualityStocksService._safe_float, hnal]
    · simp [QualityStocksService._safe_float, hnone]
    · intro s hs
      by_cases hc : s = "" ∨ s = "-"
      · simp [QualityStocksService._safe_float, hc]
      · simp [QualityStocksService._safe_float, hc, hs]
  · intro d
    refine ⟨rfl, by simp [TrendlyneQualityService._safe_float],
      by simp [TrendlyneQualityService._safe_float], ?_, ?_, ?_, ?_⟩
    · simp [TrendlyneQualityService._safe_float, hna]
    · simp [TrendlyneQualityService._safe_float, hnal]
    · simp [TrendlyneQualityService._safe_float, hnone]
    · intro s hs
      by_cases hc : s = "" ∨ s = "-"
      · simp [TrendlyneQualityService._safe_float, hc]
      · simp [TrendlyneQualityService._safe_float, hc, hs]

/-- Witness for C5: the implications applied at a concrete unparsable
string and concrete defaults. -/
theorem safe_float_placeholder_and_unparsable_defaults_witness :
    QualityStocksService._safe_float (some "abc") 5 = 5 ∧
    TrendlyneQualityService._safe_float (some "xyz") (some 3) = some 3 :=
  ⟨(safe_float_placeholder_and_unparsable_defaults.1 5).2.2.2.2.2.2 "abc" (by decide),
   (safe_float_placeholder_and_unparsable_defaults.2 (some 3)).2.2.2.2.2.2 "xyz" (by decide)⟩

namespace QualityStocksService

theorem rule1_bounds (s : QualityStock) : 0 ≤ rule1Points s ∧ rule1Points s ≤ 20 := by
  unfold rule1Points; split_ifs <;> norm_num

theorem rule2_bounds (s : QualityStock) : 0 ≤ rule2Points s ∧ rule2Points s ≤ 20 := by
  unfold rule2Points; split_ifs <;> norm_num

theorem rule3_bounds (s : QualityStock) : 0 ≤ rule3Points s ∧ rule3Points s ≤ 15 := by
  unfold rule3Points; split_ifs <;> norm_num

theorem rule4_bounds (s : QualityStock) : 0 ≤ rule4Points s ∧ rule4Points s ≤ 10 := by
  unfold rule4Points; split_ifs <;> norm_num

theorem rule5_bounds (s : QualityStock) : 0 ≤ rule5Points s ∧ rule5Points s ≤ 10 := by
  unfold rule5Points; split_ifs <;> norm_num

theorem rule6_bounds (s : QualityStock) : 0 ≤ rule6Points s ∧ rule6Points s ≤ 7 := by
  unfold rule6Points; split_ifs <;> norm_num

theorem rule7_bounds (s : QualityStock) : 0 ≤ rule7Points s ∧ rule7Points s ≤ 10 := by
  unfold rule7Points; split_ifs <;> norm_num

theorem rule8_bounds (s : QualityStock) : 0 ≤ rule8Points s ∧ rule8Points s ≤ 10 := by
  unfold rule8Points; split_ifs <;> norm_num

theorem rule9_bounds (s : QualityStock) : 0 ≤ rule9Points s ∧ rule9Points s ≤ 8 := by
  unfold rule9Points; dsimp only; split_ifs <;> norm_num

theorem rule10_bounds (s : QualityStock) : 0 ≤ rule10Points s ∧ rule10Points s ≤ 5 := by
  unfold rule10Points; split_ifs <;> norm_num

theorem rule11_bounds (s : QualityStock) : 0 ≤ rule11Points s ∧ rule11Points s ≤ 5 := by
  unfold rule11Points
  cases s.peg_ttm with
  | none => norm_num
  | some peg => dsimp only; split_ifs <;> norm_num

theorem rule12_bounds (s : QualityStock) : 0 ≤ rule12Points s ∧ rule12Points s ≤ 8 := by
  unfold rule12Points; split_ifs <;> norm_num

theorem rule13Fallback_bounds (s : QualityStock) :
    0 ≤ rule13Fallback s ∧ rule13Fallback s ≤ 4 := by
  unfold rule13Fallback
  cases s.sector_pe_ttm with
  | none => norm_num
  | some spe =>
    dsimp only
    cases s.pe_ttm with
    | none => dsimp only; split_ifs <;> norm_num
    | some pe => dsimp only; split_ifs <;> norm_num

theorem rule13_bounds (s : QualityStock) : 0 ≤ rule13Points s ∧ rule13Points s ≤ 5 := by
  have hf := rule13Fallback_bounds s
  unfold rule13Points
  cases s.pe_ttm with
  | none => exact ⟨hf.1, hf.2.trans (by norm_num)⟩
  | some pe =>
    cases s.industry_pe_ttm with
    | none => exact ⟨hf.1, hf.2.trans (by norm_num)⟩
    | some ipe =>
      dsimp only
      split_ifs <;> first
      | exact ⟨hf.1, hf.2.trans (by norm_num)⟩
      | norm_num

theorem rule14Fallback_bounds (s : QualityStock) :
    0 ≤ rule14Fallback s ∧ rule14Fallback s ≤ 2 := by
  unfold rule14Fallback
  cases s.industry_pbv_ttm with
  | none => norm_num
  | some ipbv => dsimp only; split_ifs <;> norm_num

theorem rule14_bounds (s : QualityStock) : 0 ≤ rule14Points s ∧ rule14Points s ≤ 5 := by
  have hf := rule14Fallback_bounds s
  unfold rule14Points
  cases s.price_to_book with
  | none => exact ⟨hf.1, hf.2.trans (by norm_num)⟩
  | some pb =>
    dsimp only
    split_ifs <;> first
    | exact ⟨hf.1, hf.2.trans (by norm_num)⟩
    | norm_num

theorem rule15_bounds (s : QualityStock) : 0 ≤ rule15Points s ∧ rule15Points s ≤ 5 := by
  unfold rule15Points
  cases s.ev_per_ebitda_ann with
  | none => norm_num
  | some ev => dsimp only; split_ifs <;> norm_num

theorem rule16_bounds (s : QualityStock) : 0 ≤ rule16Points s ∧ rule16Points s ≤ 3 := by
  unfold rule16Points; split_ifs <;> norm_num

theorem rule17_bounds (s : QualityStock) : 0 ≤ rule17Points s ∧ rule17Points s ≤ 3 := by
  unfold rule17Points; split_ifs <;> norm_num

theorem rule18_bounds (s : QualityStock) : 0 ≤ rule18Points s ∧ rule18Points s ≤ 4 := by
  unfold rule18Points; split_ifs <;> norm_num

theorem tlCapped_le (o : Option ℤ) : tlCapped o ≤ 7 := by
  unfold tlCapped
  cases o with
  | none => norm_num
  | some d =>
    dsimp only
    split_ifs
    · exact min_le_right _ _
    · norm_num

theorem tlCapped_nonneg (o : Option ℤ) (h : ∀ d ∈ o, (0 : ℤ) ≤ d) :
    0 ≤ tlCapped o := by
  unfold tlCapped
  cases o with
  | none => norm_num
  | some d =>
    dsimp only
    have hd : (0 : ℚ) ≤ (d : ℚ) := by exact_mod_cast h d rfl
    split_ifs
    · exact le_min (by linarith) (by norm_num)
    · norm_num

theorem rule19_le (s : QualityStock) : rule19Points s ≤ 14 := by
  unfold rule19Points
  have := tlCapped_le s.durability_score
  have := tlCapped_le s.valuation_score
  linarith

theorem rule19_nonneg (s : QualityStock)
    (hd : ∀ d ∈ s.durability_score, (0 : ℤ) ≤ d)
    (hv : ∀ v ∈ s.valuation_score, (0 : ℤ) ≤ v) : 0 ≤ rule19Points s := by
  unfold rule19Points
  have := tlCapped_nonneg s.durability_score hd
  have := tlCapped_nonneg s.valuation_score hv
  linarith

theorem rule20_le (s : QualityStock) : rule20Points s ≤ 9 := by
  unfold rule20Points
  cases s.piotroski_score with
  | none => norm_num
  | some p => exact min_le_right _ _

theorem rule20_nonneg (s : QualityStock)
    (hp : ∀ p ∈ s.piotroski_score, (0 : ℤ) ≤ p) : 0 ≤ rule20Points s := by
  unfold rule20Points
  cases hps : s.piotroski_score with
  | none => norm_num
  | some p =>
    have h0 : (0 : ℚ) ≤ (p : ℚ) := by
      have := hp p (by rw [hps]; rfl)
      exact_mod_cast this
    exact le_min h0 (by norm_num)

theorem rule21_bounds (s : QualityStock) : 0 ≤ rule21Points s ∧ rule21Points s ≤ 6 := by
  unfold rule21Points
  cases s.altman_zscore with
  | none => norm_num
  | some z => dsimp only; split_ifs <;> norm_num

theorem rule22_bounds (s : QualityStock) : 0 ≤ rule22Points s ∧ rule22Points s ≤ 5 := by
  unfold rule22Points
  cases s.tobin_q_ratio with
  | none => norm_num
  | some t => dsimp only; split_ifs <;> norm_num

theorem rule23_bounds (s : QualityStock) : 0 ≤ rule23Points s ∧ rule23Points s ≤ 4 := by
  unfold rule23Points
  cases s.graham_number with
  | none => norm_num
  | some g => dsimp only; split_ifs <;> norm_num

theorem rule24_bounds (s : QualityStock) : 0 ≤ rule24Points s ∧ rule24Points s ≤ 6 := by
  unfold rule24Points; split_ifs <;> norm_num

theorem rule25_bounds (s : QualityStock) : 0 ≤ rule25Points s ∧ rule25Points s ≤ 6 := by
  unfold rule25Points; split_ifs <;> norm_num

theorem rule26_bounds (s : QualityStock) : 0 ≤ rule26Points s ∧ rule26Points s ≤ 4 := by
  unfold rule26Points; split_ifs <;> norm_num

theorem rule27_bounds (s : QualityStock) : 0 ≤ rule27Points s ∧ rule27Points s ≤ 3 := by
  unfold rule27Points; split_ifs <;> norm_num

theorem rule28_bounds (s : QualityStock) : 0 ≤ rule28Points s ∧ rule28Points s ≤ 4 := by
  unfold rule28Points; dsimp only; split_ifs <;> norm_num

theorem rule29_bounds (s : QualityStock) : 0 ≤ rule29Points s ∧ rule29Points s ≤ 5 := by
  unfold rule29Points; split_ifs <;> norm_num

theorem rule30Fallback_bounds (s : QualityStock) :
    0 ≤ rule30Fallback s ∧ rule30Fallback s ≤ 3 := by
  unfold rule30Fallback
  cases s.price_to_sales_ann with
  | none => norm_num
  | some ps => dsimp only; split_ifs <;> norm_num

theorem rule30_bounds (s : QualityStock) : 0 ≤ rule30Points s ∧ rule30Points s ≤ 3 := by
  have hf := rule30Fallback_bounds s
  unfold rule30Points
  cases s.price_to_sales_ttm with
  | none => exact hf
  | some ps => dsimp only; split_ifs <;> first | exact hf | norm_num

theorem rule31_bounds (s : QualityStock) : 0 ≤ rule31Points s ∧ rule31Points s ≤ 3 := by
  unfold rule31Points
  cases s.price_to_cashflow with
  | none => norm_num
  | some pc => dsimp only; split_ifs <;> norm_num

theorem rule32_bounds (s : QualityStock) : 0 ≤ rule32Points s ∧ rule32Points s ≤ 3 := by
  unfold rule32Points; split_ifs <;> norm_num

theorem rule33_bounds (s : QualityStock) : 0 ≤ rule33Points s ∧ rule33Points s ≤ 2 := by
  unfold rule33Points; split_ifs <;> norm_num

theorem rule34_bounds (s : QualityStock) : 0 ≤ rule34Points s ∧ rule34Points s ≤ 2 := by
  unfold rule34Points; split_ifs <;> norm_num

theorem idxCapped_le (o : Option ℤ) : idxCapped o ≤ 3/2 := by
  unfold idxCapped
  cases o with
  | none => norm_num
  | some i =>
    dsimp only
    split_ifs
    · exact min_le_right _ _
    · norm_num

theorem idxCapped_nonneg (o : Option ℤ) (h : ∀ i ∈ o, (0 : ℤ) ≤ i) :
    0 ≤ idxCapped o := by
  unfold idxCapped
  cases o with
  | none => norm_num
  | some i =>
    dsimp only
    have hi : (0 : ℚ) ≤ (i : ℚ) := by exact_mod_cast h i rfl
    split_ifs
    · exact le_min (by linarith) (by norm_num)
    · norm_num

theorem rule35_le (s : QualityStock) : rule35Points s ≤ 3 := by
  unfold rule35Points
  have := idxCapped_le s.industry_score
  have := idxCapped_le s.sector_score
  linarith

theorem rule35_nonneg (s : QualityStock)
    (hi : ∀ i ∈ s.industry_score, (0 : ℤ) ≤ i)
    (hc : ∀ c ∈ s.sector_score, (0 : ℤ) ≤ c) : 0 ≤ rule35Points s := by
  unfold rule35Points
  have := idxCapped_nonneg s.industry_score hi
  have := idxCapped_nonneg s.sector_score hc
  linarith

theorem rule36_bounds (s : QualityStock) : 0 ≤ rule36Points s ∧ rule36Points s ≤ 2 := by
  unfold rule36Points
  cases s.tl_checklist_positive_score with
  | none => norm_num
  | some p =>
    cases s.tl_checklist_negative_score with
    | none => norm_num
    | some n => dsimp only; split_ifs <;> norm_num

theorem rule37_bounds (s : QualityStock) : 0 ≤ rule37Points s ∧ rule37Points s ≤ 3 := by
  unfold rule37Points
  cases s.gross_npa_ratio with
  | none =>
    cases s.capital_adequacy_ratio with
    | none => norm_num
    | some car => dsimp only; split_ifs <;> norm_num
  | some npa =>
    cases s.capital_adequacy_ratio with
    | none => dsimp only; split_ifs <;> norm_num
    | some car => dsimp only; split_ifs <;> norm_num

end QualityStocksService

namespace QualityStocksService

theorem earnedPoints_le (s : QualityStock) : earnedPoints s ≤ 240 := by
  unfold earnedPoints
  linarith [(rule1_bounds s).2, (rule2_bounds s).2, (rule3_bounds s).2,
    (rule4_bounds s).2, (rule5_bounds s).2, (rule6_bounds s).2,
    (rule7_bounds s).2, (rule8_bounds s).2, (rule9_bounds s).2,
    (rule10_bounds s).2, (rule11_bounds s).2, (rule12_bounds s).2,
    (rule13_bounds s).2, (rule14_bounds s).2, (rule15_bounds s).2,
    (rule16_bounds s).2, (rule17_bounds s).2, (rule18_bounds s).2,
    rule19_le s, rule20_le s, (rule21_bounds s).2, (rule22_bounds s).2,
    (rule23_bounds s).2, (rule24_bounds s).2, (rule25_bounds s).2,
    (rule26_bounds s).2, (rule27_bounds s).2, (rule28_bounds s).2,
    (rule29_bounds s).2, (rule30_bounds s).2, (rule31_bounds s).2,
    (rule32_bounds s).2, (rule33_bounds s).2, (rule34_bounds s).2,
    rule35_le s, (rule36_bounds s).2, (rule37_bounds s).2]

theorem earnedPoints_nonneg (s : QualityStock)
    (hd : ∀ d ∈ s.durability_score, (0 : ℤ) ≤ d)
    (hv : ∀ v ∈ s.valuation_score, (0 : ℤ) ≤ v)
    (hp : ∀ p ∈ s.piotroski_score, (0 : ℤ) ≤ p)
    (hi : ∀ i ∈ s.industry_score, (0 : ℤ) ≤ i)
    (hc : ∀ c ∈ s.sector_score, (0 : ℤ) ≤ c) : 0 ≤ earnedPoints s := by
  unfold earnedPoints
  linarith [(rule1_bounds s).1, (rule2_bounds s).1, (rule3_bounds s).1,
    (rule4_bounds s).1, (rule5_bounds s).1, (rule6_bounds s).1,
    (rule7_bounds s).1, (rule8_bounds s).1, (rule9_bounds s).1,
    (rule10_bounds s).1, (rule11_bounds s).1, (rule12_bounds s).1,
    (rule13_bounds s).1, (rule14_bounds s).1, (rule15_bounds s).1,
    (rule16_bounds s).1, (rule17_bounds s).1, (rule18_bounds s).1,
    rule19_nonneg s hd hv, rule20_nonneg s hp, (rule21_bounds s).1,
    (rule22_bounds s).1, (rule23_bounds s).1, (rule24_bounds s).1,
    (rule25_bounds s).1, (rule26_bounds s).1, (rule27_bounds s).1,
    (rule28_bounds s).1, (rule29_bounds s).1, (rule30_bounds s).1,
    (rule31_bounds s).1, (rule32_bounds s).1, (rule33_bounds s).1,
    (rule34_bounds s).1, rule35_nonneg s hi hc, (rule36_bounds s).1,
    (rule37_bounds s).1]

end QualityStocksService

/-- C2 (amended): the composite quality score never exceeds 100, and it is
bounded below by 0 for every instrument whose externally sourced integer
scores (Trendlyne durability and valuation, Piotroski, industry, sector) are
nonnegative when present.  (Without that restriction the lower bound fails,
see the counterexample.) -/
theorem quality_score_bounds :
    (∀ s : QualityStock, QualityStocksService.calculate_quality_score s ≤ 100) ∧
    (∀ s : QualityStock,
      (∀ d ∈ s.durability_score, (0 : ℤ) ≤ d) →
      (∀ v ∈ s.valuation_score, (0 : ℤ) ≤ v) →
      (∀ p ∈ s.piotroski_score, (0 : ℤ) ≤ p) →
      (∀ i ∈ s.industry_score, (0 : ℤ) ≤ i) →
      (∀ c ∈ s.sector_score, (0 : ℤ) ≤ c) →
      0 ≤ QualityStocksService.calculate_quality_score s) := by
  have hmax : QualityStocksService.maxScoreTotal = 240 := by
    norm_num [QualityStocksService.maxScoreTotal]
  constructor
  · intro s
    unfold QualityStocksService.calculate_quality_score
    rw [hmax, if_pos (by norm_num : (0 : ℚ) < 240)]
    apply round2_le_100
    have := QualityStocksService.earnedPoints_le s
    rw [div_mul_eq_mul_div, div_le_iff₀ (by norm_num : (0 : ℚ) < 240)]
    linarith
  · intro s hd hv hp hi hc
    unfold QualityStocksService.calculate_quality_score
    rw [hmax, if_pos (by norm_num : (0 : ℚ) < 240)]
    apply round2_nonneg
    have := QualityStocksService.earnedPoints_nonneg s hd hv hp hi hc
    positivity

/-- Witness for C2: the amended bound applied to a concrete instrument with
all external scores present and nonnegative. -/
theorem quality_score_bounds_witness :
    0 ≤ QualityStocksService.calculate_quality_score superStock ∧
    QualityStocksService.calculate_quality_score superStock ≤ 100 :=
  ⟨quality_score_bounds.2 superStock (by decide) (by decide) (by decide)
      (by decide) (by decide),
   quality_score_bounds.1 superStock⟩

/-- Counterexample for C2 as stated: an instrument whose (negative) Piotroski
score enters the sum uncapped below, driving the composite score to
-4159.17 — the claimed `0 ≤ score` fails on instruments with negative metric
fields. -/
theorem quality_score_negative_on_negative_piotroski :
    QualityStocksService.calculate_quality_score badStock < 0 ∧
    badStock.piotroski_score = some (-10000) := by
  have he : QualityStocksService.earnedPoints badStock = -9982 := by
    norm_num [QualityStocksService.earnedPoints, QualityStocksService.rule1Points,
      QualityStocksService.rule2Points, QualityStocksService.rule3Points,
      QualityStocksService.rule4Points, QualityStocksService.rule5Points,
      QualityStocksService.rule6Points, QualityStocksService.rule7Points,
      QualityStocksService.rule8Points, QualityStocksService.rule9Points,
      QualityStocksService.rule10Points, QualityStocksService.rule11Points,
      QualityStocksService.rule12Points, QualityStocksService.rule13Points,
      QualityStocksService.rule13Fallback, QualityStocksService.rule14Points,
      QualityStocksService.rule14Fallback, QualityStocksService.rule15Points,
      QualityStocksService.rule16Points, QualityStocksService.rule17Points,
      QualityStocksService.rule18Points, QualityStocksService.rule19Points,
      QualityStocksService.tlCapped, QualityStocksService.rule20Points,
      QualityStocksService.rule21Points, QualityStocksService.rule22Points,
      QualityStocksService.rule23Points, QualityStocksService.rule24Points,
      QualityStocksService.rule25Points, QualityStocksService.rule26Points,
      QualityStocksService.rule27Points, QualityStocksService.rule28Points,
      QualityStocksService.rule29Points, QualityStocksService.rule30Points,
      QualityStocksService.rule30Fallback, QualityStocksService.rule31Points,
      QualityStocksService.rule32Points, QualityStocksService.rule33Points,
      QualityStocksService.rule34Points, QualityStocksService.rule35Points,
      QualityStocksService.idxCapped, QualityStocksService.rule36Points,
      QualityStocksService.rule37Points,
      QualityStocksService._count_consecutive_positive_quarters,
      QualityStocksService.streakCount,
      QualityStocksService._assess_profit_growth_consistency,
      QualityStocksService._assess_margin_stability,
      QualityStocksService._assess_promoter_trend,
      QualityStocksService._assess_cash_flow_quality,
      QualityStocksService._assess_roe_trend,
      QualityStocksService._assess_roce_consistency,
      badStock, zeroStock]
    all_goals simp
    all_goals norm_num
  refine ⟨?_, rfl⟩
  unfold QualityStocksService.calculate_quality_score
  rw [he]
  norm_num [QualityStocksService.maxScoreTotal, round2, round_eq]

theorem altmanOk_mono {b1 b2 : ℚ} (h : b2 ≤ b1) (o : Option ℚ)
    (ho : QualityStocksService.altmanOk b1 o) :
    QualityStocksService.altmanOk b2 o := by
  unfold QualityStocksService.altmanOk at ho ⊢
  cases o with
  | none => trivial
  | some z =>
    dsimp only at ho ⊢
    linarith

/-- C8 (confirmed): an instrument through the Great gate satisfies every
numerically looser Aggressive/Good threshold on the same metric, and the
relaxed Altman Z-score check. -/
theorem great_gate_implies_looser_thresholds (s : QualityStock)
    (h : QualityStocksService.greatMeetsCriteria s) :
    (10 < s.roe ∧ 8 < s.roe) ∧
    (12 < s.roce ∧ 10 < s.roce) ∧
    (s.debt_to_equity < 3/2 ∧ s.debt_to_equity < 2) ∧
    (2 < s.interest_coverage ∧ 3/2 < s.interest_coverage) ∧
    (s.promoter_pledge_percentage < 40 ∧ s.promoter_pledge_percentage < 50) ∧
    QualityStocksService.altmanOk (3/2) s.altman_zscore := by
  obtain ⟨h1, h2, h3, h4, -, -, -, -, -, -, -, -, -, -, -, h16, h17⟩ := h
  exact ⟨⟨by linarith, by linarith⟩, ⟨by linarith, by linarith⟩,
    ⟨by linarith, by linarith⟩, ⟨by linarith, by linarith⟩,
    ⟨by linarith, by linarith⟩, altmanOk_mono (by norm_num) _ h17⟩

theorem superStock_score :
    QualityStocksService.calculate_quality_score superStock = 4771/50 := by
  have he : QualityStocksService.earnedPoints superStock = 229 := by
    norm_num [QualityStocksService.earnedPoints, QualityStocksService.rule1Points,
      QualityStocksService.rule2Points, QualityStocksService.rule3Points,
      QualityStocksService.rule4Points, QualityStocksService.rule5Points,
      QualityStocksService.rule6Points, QualityStocksService.rule7Points,
      QualityStocksService.rule8Points, QualityStocksService.rule9Points,
      QualityStocksService.rule10Points, QualityStocksService.rule11Points,
      QualityStocksService.rule12Points, QualityStocksService.rule13Points,
      QualityStocksService.rule13Fallback, QualityStocksService.rule14Points,
      QualityStocksService.rule14Fallback, QualityStocksService.rule15Points,
      QualityStocksService.rule16Points, QualityStocksService.rule17Points,
      QualityStocksService.rule18Points, QualityStocksService.rule19Points,
      QualityStocksService.tlCapped, QualityStocksService.rule20Points,
      QualityStocksService.rule21Points, QualityStocksService.rule22Points,
      QualityStocksService.rule23Points, QualityStocksService.rule24Points,
      QualityStocksService.rule25Points, QualityStocksService.rule26Points,
      QualityStocksService.rule27Points, QualityStocksService.rule28Points,
      QualityStocksService.rule29Points, QualityStocksService.rule30Points,
      QualityStocksService.rule30Fallback, QualityStocksService.rule31Points,
      QualityStocksService.rule32Points, QualityStocksService.rule33Points,
      QualityStocksService.rule34Points, QualityStocksService.rule35Points,
      QualityStocksService.idxCapped, QualityStocksService.rule36Points,
      QualityStocksService.rule37Points,
      QualityStocksService._count_consecutive_positive_quarters,
      QualityStocksService.streakCount,
      QualityStocksService._assess_profit_growth_consistency,
      QualityStocksService._assess_margin_stability,
      QualityStocksService._assess_promoter_trend,
      QualityStocksService._assess_cash_flow_quality,
      QualityStocksService._assess_roe_trend,
      QualityStocksService._assess_roce_consistency,
      superStock, zeroStock]
  unfold QualityStocksService.calculate_quality_score
  rw [he]
  norm_num [QualityStocksService.maxScoreTotal, round2, round_eq]

theorem mediumStock_score :
    QualityStocksService.calculate_quality_score mediumStock = 6917/100 := by
  have he : QualityStocksService.earnedPoints mediumStock = 166 := by
    norm_num [QualityStocksService.earnedPoints, QualityStocksService.rule1Points,
      QualityStocksService.rule2Points, QualityStocksService.rule3Points,
      QualityStocksService.rule4Points, QualityStocksService.rule5Points,
      QualityStocksService.rule6Points, QualityStocksService.rule7Points,
      QualityStocksService.rule8Points, QualityStocksService.rule9Points,
      QualityStocksService.rule10Points, QualityStocksService.rule11Points,
      QualityStocksService.rule12Points, QualityStocksService.rule13Points,
      QualityStocksService.rule13Fallback, QualityStocksService.rule14Points,
      QualityStocksService.rule14Fallback, QualityStocksService.rule15Points,
      QualityStocksService.rule16Points, QualityStocksService.rule17Points,
      QualityStocksService.rule18Points, QualityStocksService.rule19Points,
      QualityStocksService.tlCapped, QualityStocksService.rule20Points,
      QualityStocksService.rule21Points, QualityStocksService.rule22Points,
      QualityStocksService.rule23Points, QualityStocksService.rule24Points,
      QualityStocksService.rule25Points, QualityStocksService.rule26Points,
      QualityStocksService.rule27Points, QualityStocksService.rule28Points,
      QualityStocksService.rule29Points, QualityStocksService.rule30Points,
      QualityStocksService.rule30Fallback, QualityStocksService.rule31Points,
      QualityStocksService.rule32Points, QualityStocksService.rule33Points,
      QualityStocksService.rule34Points, QualityStocksService.rule35Points,
      QualityStocksService.idxCapped, QualityStocksService.rule36Points,
      QualityStocksService.rule37Points,
      QualityStocksService._count_consecutive_positive_quarters,
      QualityStocksService.streakCount,
      QualityStocksService._assess_profit_growth_consistency,
      QualityStocksService._assess_margin_stability,
      QualityStocksService._assess_promoter_trend,
      QualityStocksService._assess_cash_flow_quality,
      QualityStocksService._assess_roe_trend,
      QualityStocksService._assess_roce_consistency,
      mediumStock, zeroStock]
    all_goals simp
    all_goals norm_num
  unfold QualityStocksService.calculate_quality_score
  rw [he]
  norm_num [QualityStocksService.maxScoreTotal, round2, round_eq]

theorem superStock_great : QualityStocksService.greatMeetsCriteria superStock := by
  unfold QualityStocksService.greatMeetsCriteria
  rw [superStock_score]
  norm_num [QualityStocksService._count_consecutive_positive_quarters,
    QualityStocksService.streakCount,
    QualityStocksService._assess_profit_growth_consistency,
    QualityStocksService._assess_margin_stability,
    QualityStocksService._assess_cash_flow_quality,
    QualityStocksService.altmanOk, superStock, zeroStock]
  all_goals simp

theorem superStock_aggressive :
    QualityStocksService.aggressiveMeetsCriteria superStock := by
  unfold QualityStocksService.aggressiveMeetsCriteria
  rw [superStock_score]
  norm_num [QualityStocksService._assess_profit_growth_consistency,
    QualityStocksService._assess_margin_stability,
    QualityStocksService._assess_cash_flow_quality,
    QualityStocksService.altmanOk, superStock, zeroStock]
  all_goals simp

theorem mediumStock_medium : QualityStocksService.mediumMeetsCriteria mediumStock := by
  unfold QualityStocksService.mediumMeetsCriteria
  rw [mediumStock_score]
  norm_num [QualityStocksService._assess_profit_growth_consistency,
    QualityStocksService._assess_margin_stability,
    QualityStocksService._assess_cash_flow_quality, mediumStock, zeroStock]
  all_goals simp

theorem mem_filter_great_iff (stocks : List QualityStock) (s : QualityStock) :
    s ∈ QualityStocksService.filter_great_quality_stocks stocks ↔
      s ∈ stocks ∧ QualityStocksService.greatMeetsCriteria s := by
  unfold QualityStocksService.filter_great_quality_stocks
  rw [List.mem_insertionSort, List.mem_filter, decide_eq_true_eq]

theorem mem_filter_aggressive_iff (stocks : List QualityStock) (s : QualityStock) :
    s ∈ QualityStocksService.filter_aggressive_quality_stocks stocks ↔
      s ∈ stocks ∧ QualityStocksService.aggressiveMeetsCriteria s := by
  unfold QualityStocksService.filter_aggressive_quality_stocks
  rw [List.mem_insertionSort, List.mem_filter, decide_eq_true_eq]

theorem mem_filter_medium_iff (stocks exclude_great exclude_aggressive :
    List QualityStock) (s : QualityStock) :
    s ∈ QualityStocksService.filter_medium_quality_stocks stocks exclude_great
        exclude_aggressive ↔
      s ∈ stocks ∧
        s.nse_code ∉ exclude_great.map QualityStock.nse_code ∧
        s.nse_code ∉ exclude_aggressive.map QualityStock.nse_code ∧
        QualityStocksService.mediumMeetsCriteria s := by
  unfold QualityStocksService.filter_medium_quality_stocks
  rw [List.mem_insertionSort, List.mem_filter, decide_eq_true_eq]

theorem mem_tq_filter_great_iff (stocks : List TrendlyneStock) (s : TrendlyneStock) :
    s ∈ TrendlyneQualityService.filter_great_quality_stocks stocks ↔
      s ∈ stocks ∧ TrendlyneQualityService.greatMeets s := by
  unfold TrendlyneQualityService.filter_great_quality_stocks
  rw [List.mem_insertionSort, List.mem_filter, decide_eq_true_eq]

theorem mem_tq_filter_medium_iff (stocks : List TrendlyneStock) (s : TrendlyneStock) :
    s ∈ TrendlyneQualityService.filter_medium_quality_stocks stocks ↔
      s ∈ stocks ∧
        TrendlyneQualityService._get_stock_key s ∉
          (TrendlyneQualityService.filter_great_quality_stocks stocks).map
            TrendlyneQualityService._get_stock_key ∧
        TrendlyneQualityService.mediumMeets s := by
  unfold TrendlyneQualityService.filter_medium_quality_stocks
  rw [List.mem_insertionSort, List.mem_filter, decide_eq_true_eq]

/-- Counterexample for C1 as stated: `superStock` is emitted both by
`filter_great_quality_stocks` and by `filter_aggressive_quality_stocks` over
the same collection — the Aggressive filter applies no exclusion of the
Great tier, so the tiers are not mutually exclusive. -/
theorem great_stock_in_aggressive_result :
    superStock ∈ QualityStocksService.filter_great_quality_stocks [superStock] ∧
    superStock ∈ QualityStocksService.filter_aggressive_quality_stocks [superStock] :=
  ⟨(mem_filter_great_iff [superStock] superStock).mpr
      ⟨List.mem_singleton_self superStock, superStock_great⟩,
   (mem_filter_aggressive_iff [superStock] superStock).mpr
      ⟨List.mem_singleton_self superStock, superStock_aggressive⟩⟩

/-- C1 (amended): the only tier exclusions the code applies are these: an
instrument emitted by `filter_medium_quality_stocks` never satisfies the
Great gate (its score is below 70 while the Great gate requires at least 70)
and carries no NSE code from the caller-supplied exclusion lists (which
default to empty); in the trendlyne variant the Medium filter skips every
stock whose key is in the Great result.  The Aggressive filter applies no
exclusion, so a Great-gate instrument can also be emitted there (see the
counterexample). -/
theorem medium_filter_exclusion_semantics :
    (∀ (stocks exclude_great exclude_aggressive : List QualityStock)
        (s : QualityStock),
       s ∈ QualityStocksService.filter_medium_quality_stocks stocks
           exclude_great exclude_aggressive →
         ¬ QualityStocksService.greatMeetsCriteria s ∧
         s.nse_code ∉ exclude_great.map QualityStock.nse_code ∧
         s.nse_code ∉ exclude_aggressive.map QualityStock.nse_code) ∧
    (∀ (stocks : List TrendlyneStock) (t : TrendlyneStock),
       t ∈ TrendlyneQualityService.filter_medium_quality_stocks stocks →
         TrendlyneQualityService._get_stock_key t ∉
           (TrendlyneQualityService.filter_great_quality_stocks stocks).map
             TrendlyneQualityService._get_stock_key) := by
  constructor
  · intro stocks exG exA s hs
    rw [mem_filter_medium_iff] at hs
    obtain ⟨-, hg, ha, hm⟩ := hs
    refine ⟨?_, hg, ha⟩
    intro hgreat
    have h70 : 70 ≤ QualityStocksService.calculate_quality_score s :=
      hgreat.2.2.2.2.2.2.2.2.2.2.1
    have hlt : QualityStocksService.calculate_quality_score s < 70 :=
      hm.2.2.2.2.2.1
    linarith
  · intro stocks t ht
    rw [mem_tq_filter_medium_iff] at ht
    exact ht.2.1

/-- Witness for C1's amended statement: applied to a concrete Good-tier
instrument filtered with empty exclusion lists. -/
theorem medium_filter_exclusion_semantics_witness :
    ¬ QualityStocksService.greatMeetsCriteria mediumStock ∧
    mediumStock.nse_code ∉ ([] : List QualityStock).map QualityStock.nse_code ∧
    mediumStock.nse_code ∉ ([] : List QualityStock).map QualityStock.nse_code :=
  medium_filter_exclusion_semantics.1 [mediumStock] [] [] mediumStock
    ((mem_filter_medium_iff [mediumStock] [] [] mediumStock).mpr
      ⟨List.mem_singleton_self mediumStock, by simp, by simp, mediumStock_medium⟩)

theorem durabilityOk_iff (lo hi : Option ℤ) (s : QualityStock) :
    QualityStocksService.durabilityOk lo hi s ↔
      ∃ d, s.durability_score = some d ∧
        QualityStocksService.boundOkLow lo d ∧ QualityStocksService.boundOkHigh hi d := by
  unfold QualityStocksService.durabilityOk
  cases hd : s.durability_score with
  | none => simp
  | some d => simp

theorem valuationOk_iff (lo hi : Option ℤ) (s : QualityStock) :
    QualityStocksService.valuationOk lo hi s ↔
      ∃ v, s.valuation_score = some v ∧
        QualityStocksService.boundOkLow lo v ∧ QualityStocksService.boundOkHigh hi v := by
  unfold QualityStocksService.valuationOk
  cases hv : s.valuation_score with
  | none => simp
  | some v => simp

/-- C7 (confirmed): `filter_by_durability_valuation` emits an instrument
exactly when both index scores are present and each lies within the
caller-supplied inclusive bounds (a `None` bound imposing no constraint,
a missing score excluding the instrument), and the result is sorted by the
sum of the two index scores in descending order. -/
theorem filter_by_durability_valuation_spec :
    ∀ (stocks : List QualityStock) (minD maxD minV maxV : Option ℤ),
      (∀ s, s ∈ QualityStocksService.filter_by_durability_valuation
          minD maxD minV maxV stocks ↔
        s ∈ stocks ∧
        (∃ d, s.durability_score = some d ∧
          QualityStocksService.boundOkLow minD d ∧
          QualityStocksService.boundOkHigh maxD d) ∧
        (∃ v, s.valuation_score = some v ∧
          QualityStocksService.boundOkLow minV v ∧
          QualityStocksService.boundOkHigh maxV v)) ∧
      List.Sorted QualityStocksService.dvSumDesc
        (QualityStocksService.filter_by_durability_valuation
          minD maxD minV maxV stocks) := by
  intro stocks minD maxD minV maxV
  constructor
  · intro s
    unfold QualityStocksService.filter_by_durability_valuation
    rw [List.mem_insertionSort, List.mem_filter, decide_eq_true_eq,
      durabilityOk_iff, valuationOk_iff]
  · exact List.sorted_insertionSort _ _

/-- Witness for C8: the looser thresholds hold at the concrete Great-gate
instrument. -/
theorem great_gate_implies_looser_thresholds_witness :
    (10 < superStock.roe ∧ 8 < superStock.roe) ∧
    (12 < superStock.roce ∧ 10 < superStock.roce) ∧
    (superStock.debt_to_equity < 3/2 ∧ superStock.debt_to_equity < 2) ∧
    (2 < superStock.interest_coverage ∧ 3/2 < superStock.interest_coverage) ∧
    (superStock.promoter_pledge_percentage < 40 ∧
      superStock.promoter_pledge_percentage < 50) ∧
    QualityStocksService.altmanOk (3/2) superStock.altman_zscore :=
  great_gate_implies_looser_thresholds superStock superStock_great

namespace TrendlyneStocksService

theorem mem_addFile_self (files : List String) (n : String) : n ∈ addFile files n := by
  unfold addFile
  split_ifs with h
  · exact h
  · exact List.mem_append_right _ (List.mem_singleton_self n)

theorem mem_addFile_of_mem (files : List String) (n m : String) (h : m ∈ files) :
    m ∈ addFile files n := by
  unfold addFile
  split_ifs
  · exact h
  · exact List.mem_append_left _ h

theorem loadedFiles_mono (force : Bool) :
    ∀ (files : List CSVFile) (acc : TLState × ℕ) (m : String),
      m ∈ acc.1.loadedFiles →
      m ∈ (files.foldl (loadStep force) acc).1.loadedFiles := by
  intro files
  induction files with
  | nil => intro acc m h; exact h
  | cons f fs ih =>
    intro acc m h
    rw [List.foldl_cons]
    apply ih
    unfold loadStep
    split_ifs
    · exact h
    · exact mem_addFile_of_mem _ _ _ h

theorem all_files_loaded (force : Bool) :
    ∀ (files : List CSVFile) (acc : TLState × ℕ) (f : CSVFile), f ∈ files →
      f.1 ∈ (files.foldl (loadStep force) acc).1.loadedFiles := by
  intro files
  induction files with
  | nil => intro acc f hf; exact absurd hf (List.not_mem_nil f)
  | cons g gs ih =>
    intro acc f hf
    rw [List.foldl_cons]
    rcases List.mem_cons.mp hf with rfl | h
    · apply loadedFiles_mono
      unfold loadStep
      split_ifs with hc
      · exact hc.2
      · exact mem_addFile_self _ _
    · exact ih _ f h

theorem foldl_skip_all (files : List CSVFile) :
    ∀ (st : TLState) (n : ℕ),
      (∀ f ∈ files, f.1 ∈ st.loadedFiles) →
      files.foldl (loadStep false) (st, n) = (st, n) := by
  induction files with
  | nil => intro st n _; rfl
  | cons f fs ih =>
    intro st n h
    rw [List.foldl_cons]
    have hstep : loadStep false ((st, n) : TLState × ℕ) f = (st, n) := by
      unfold loadStep
      rw [if_pos ⟨by simp, h f (List.mem_cons_self f fs)⟩]
    rw [hstep]
    exact ih st n (fun g hg => h g (List.mem_cons.mpr (Or.inr hg)))

end TrendlyneStocksService

/-- C9 (confirmed): loading twice with unchanged sources yields the identical
collection: `load_stocks` replaces the in-memory list with a pure function of
the parsed rows, and a second `load_all_files` pass skips every
already-loaded file, leaving the state unchanged. -/
theorem load_twice_yields_same_collection :
    (∀ (parsed stocks_before : List QualityStock),
       QualityStocksService.load_stocks_state parsed
           (QualityStocksService.load_stocks_state parsed stocks_before) =
         QualityStocksService.load_stocks_state parsed stocks_before) ∧
    (∀ (st : TrendlyneStocksService.TLState)
        (files : List TrendlyneStocksService.CSVFile),
       (TrendlyneStocksService.load_all_files false
           (TrendlyneStocksService.load_all_files false st files).1 files).1 =
         (TrendlyneStocksService.load_all_files false st files).1) := by
  constructor
  · intro parsed before
    rfl
  · intro st files
    unfold TrendlyneStocksService.load_all_files
    rw [TrendlyneStocksService.foldl_skip_all files _ 0
      (fun f hf => TrendlyneStocksService.all_files_loaded false files (st, 0) f hf)]

theorem isSome_lookupKey_updateKey {α : Type} (m : List (String × α))
    (k k2 : String) (v : α) (h : (lookupKey m k2).isSome = true) :
    (lookupKey (updateKey m k v) k2).isSome = true := by
  by_cases hk : k2 = k
  · subst hk
    rw [lookupKey_updateKey_self m k2 v h]
    rfl
  · rw [lookupKey_updateKey_ne m k k2 v hk]
    exact h

theorem isSome_lookupKey_append {α : Type} (m m2 : List (String × α))
    (k : String) (h : (lookupKey m k).isSome = true) :
    (lookupKey (m ++ m2) k).isSome = true := by
  rw [lookupKey_append]
  cases hm : lookupKey m k with
  | none => rw [hm] at h; exact absurd h (by simp)
  | some v => rfl

namespace TrendlyneStocksService

theorem isSome_lookupKey_processRow (file_name : String)
    (stocks : List (String × TrendlyneStock)) (r : Row) (k : String)
    (h : (lookupKey stocks k).isSome = true) :
    (lookupKey (processRow file_name stocks r) k).isSome = true := by
  unfold processRow
  dsimp only
  cases hk : _get_stock_key (cleanedRow r) with
  | none => exact h
  | some stock_key =>
    dsimp only
    cases hn : _clean_value (rowGetD (cleanedRow r) "Stock") with
    | none => exact h
    | some stock_name =>
      dsimp only
      cases hl : lookupKey stocks stock_key with
      | some existing =>
        dsimp only
        exact isSome_lookupKey_updateKey stocks stock_key k _ h
      | none =>
        dsimp only
        exact isSome_lookupKey_append stocks _ k h

theorem isSome_lookupKey_processRows (rows : List Row) :
    ∀ (file_name : String) (stocks : List (String × TrendlyneStock)) (k : String),
      (lookupKey stocks k).isSome = true →
      (lookupKey (_process_csv_rows rows file_name stocks) k).isSome = true := by
  induction rows with
  | nil => intro f stocks k h; exact h
  | cons r rs ih =>
    intro f stocks k h
    unfold _process_csv_rows
    rw [List.foldl_cons]
    exact ih f _ k (isSome_lookupKey_processRow f stocks r k h)

theorem isSome_lookupKey_load (force : Bool) :
    ∀ (files : List CSVFile) (acc : TLState × ℕ) (k : String),
      (lookupKey acc.1.stocks k).isSome = true →
      (lookupKey (files.foldl (loadStep force) acc).1.stocks k).isSome = true := by
  intro files
  induction files with
  | nil => intro acc k h; exact h
  | cons f fs ih =>
    intro acc k h
    rw [List.foldl_cons]
    apply ih
    unfold loadStep
    split_ifs
    · exact h
    · exact isSome_lookupKey_processRows f.2 f.1 acc.1.stocks k h

end TrendlyneStocksService

/-- A stock left over from an earlier load whose source file no longer
exists. -/
def staleStock : TrendlyneStock where
  stock := "Ghost Industries"
  nse_code := some "GHOST"
  bse_code := none
  isin := none
  data := [("ROE Ann  %", "5")]
  source_files := ["trendlyne-filtered (1).csv"]

/-- Service state caching `staleStock` under its key. -/
def staleState : TrendlyneStocksService.TLState where
  stocks := [("NSE:GHOST", staleStock)]
  loadedFiles := ["trendlyne-filtered (1).csv"]

/-- Counterexample for C4 as stated: refreshing with no current source files
leaves the previously cached instrument in place, while a from-scratch parse
of the same (empty) file set yields the empty collection — `refresh_data`
never clears the cache, so the post-refresh collection is not the set parsed
from the current files. -/
theorem refresh_data_keeps_stale_entry :
    (TrendlyneStocksService.refresh_data staleState []).2.stocks =
      staleState.stocks ∧
    staleState.stocks ≠ [] ∧
    (TrendlyneStocksService.load_all_files true
      TrendlyneStocksService.initialState []).1.stocks = [] := by
  refine ⟨rfl, ?_, rfl⟩
  simp [staleState]

/-- C4 (amended): `refresh_data` re-parses every current source file with
`force_reload` and merges into the existing collection without clearing it:
the new state is exactly the forced reload of the old state, every identity
key cached before the refresh is still present afterwards (its fields
possibly updated), and the returned record reports the before- and
after-counts of instruments. -/
theorem refresh_data_merges_and_reports :
    ∀ (st : TrendlyneStocksService.TLState)
      (files : List TrendlyneStocksService.CSVFile),
      (TrendlyneStocksService.refresh_data st files).1.stocks_before =
        st.stocks.length ∧
      (TrendlyneStocksService.refresh_data st files).1.stocks_after =
        (TrendlyneStocksService.refresh_data st files).2.stocks.length ∧
      (TrendlyneStocksService.refresh_data st files).2 =
        (TrendlyneStocksService.load_all_files true st files).1 ∧
      ∀ k, (lookupKey st.stocks k).isSome = true →
        (lookupKey (TrendlyneStocksService.refresh_data st files).2.stocks
          k).isSome = true := by
  intro st files
  refine ⟨rfl, rfl, rfl, ?_⟩
  intro k h
  exact TrendlyneStocksService.isSome_lookupKey_load true files (st, 0) k h

/-- Witness for C4's amended statement: a cached key survives a forced
reload over a file set that no longer mentions it. -/
theorem refresh_data_merges_and_reports_witness :
    (lookupKey (TrendlyneStocksService.refresh_data staleState
      [("trendlyne-filtered (2).csv", [])]).2.stocks "NSE:GHOST").isSome = true :=
  (refresh_data_merges_and_reports staleState
    [("trendlyne-filtered (2).csv", [])]).2.2.2 "NSE:GHOST" rfl

namespace TrendlyneStocksService

theorem processRow_creates (file_name : String) (r : Row) (key n : String)
    (hk : _get_stock_key (cleanedRow r) = some key)
    (hn : _clean_value (rowGetD (cleanedRow r) "Stock") = some n) :
    ∃ t, lookupKey (processRow file_name [] r) key = some t ∧
      t.data = rowData (cleanedRow r) := by
  unfold processRow
  dsimp only
  rw [hk]
  dsimp only
  rw [hn]
  dsimp only [lookupKey]
  refine ⟨⟨n, _clean_value (rowGetD (cleanedRow r) "NSE Code"),
    _clean_value (rowGetD (cleanedRow r) "BSE Code"),
    _clean_value (rowGetD (cleanedRow r) "ISIN"),
    rowData (cleanedRow r), [file_name]⟩, ?_, rfl⟩
  simp [lookupKey]

theorem processRow_merges (file_name : String) (r : Row) (key : String)
    (t0 : TrendlyneStock) (stocks : List (String × TrendlyneStock))
    (hk : _get_stock_key (cleanedRow r) = some key)
    (hn : ∃ n, _clean_value (rowGetD (cleanedRow r) "Stock") = some n)
    (hl : lookupKey stocks key = some t0) :
    ∃ t, lookupKey (processRow file_name stocks r) key = some t ∧
      t.data = dictUpdate t0.data (rowData (cleanedRow r)) := by
  obtain ⟨n, hn⟩ := hn
  unfold processRow
  dsimp only
  rw [hk]
  dsimp only
  rw [hn]
  dsimp only
  rw [hl]
  dsimp only
  exact ⟨_, lookupKey_updateKey_self stocks key _ (by rw [hl]; rfl), rfl⟩

theorem noDupKeys_rowDataStep (row : Row) :
    ∀ acc : List (String × String), NoDupKeys acc →
      NoDupKeys (row.foldl
        (fun acc kv =>
          if kv.1 ∈ coreFields then acc
          else
            match _clean_value kv.2 with
            | none => acc
            | some cv => dictInsert acc kv.1 cv) acc) := by
  induction row with
  | nil => intro acc h; exact h
  | cons kv rest ih =>
    intro acc h
    rw [List.foldl_cons]
    apply ih
    split_ifs
    · exact h
    · cases _clean_value kv.2 with
      | none => exact h
      | some cv => exact noDupKeys_dictInsert acc kv.1 cv h

theorem noDupKeys_rowData (row : Row) : NoDupKeys (rowData row) :=
  noDupKeys_rowDataStep row [] List.nodup_nil

end TrendlyneStocksService

/-- A first parsed row supplying a metric (ROE) but neither Trendlyne score. -/
def qs1 : QualityStock :=
  { zeroStock with
    isin := "INE000C01003"
    roe := 15 }

/-- A later row for the same identity supplying both scores but not the
metric; its parsed form defaults ROE to 0. -/
def qs2 : QualityStock :=
  { zeroStock with
    isin := "INE000C01003"
    durability_score := some 75
    valuation_score := some 60 }

/-- Counterexample for C3 as stated: in `QualityStocksService.load_stocks`
the second row (with both index scores) replaces the stored first one
wholesale, so the loaded instrument carries both scores but loses the ROE
value only the first row supplied (it reads 0, the parse default, not 15). -/
theorem quality_dedup_drops_first_row_fields :
    QualityStocksService.load_stocks [qs1, qs2] = [qs2] ∧
    qs1.roe = 15 ∧ qs2.roe = 0 ∧
    qs2.durability_score = some 75 ∧ qs2.valuation_score = some 60 :=
  ⟨rfl, rfl, rfl, rfl, rfl⟩

/-- C3 (amended): the claimed dedup behaviour holds of the trendlyne stocks
service: merging a second row with the same identity key that supplies both
composite index scores yields an instrument carrying both scores while every
`data` field only the first row supplied is retained.  (In
`QualityStocksService.load_stocks` the second row instead replaces the first
wholesale — see the counterexample.) -/
theorem trendlyne_merge_retains_fields :
    ∀ (r1 r2 : TrendlyneStocksService.Row) (file_name key n1 n2 dv vv : String),
      TrendlyneStocksService._get_stock_key
        (TrendlyneStocksService.cleanedRow r1) = some key →
      TrendlyneStocksService._get_stock_key
        (TrendlyneStocksService.cleanedRow r2) = some key →
      TrendlyneStocksService._clean_value
        (TrendlyneStocksService.rowGetD
          (TrendlyneStocksService.cleanedRow r1) "Stock") = some n1 →
      TrendlyneStocksService._clean_value
        (TrendlyneStocksService.rowGetD
          (TrendlyneStocksService.cleanedRow r2) "Stock") = some n2 →
      lookupKey (TrendlyneStocksService.rowData
        (TrendlyneStocksService.cleanedRow r2)) "Durability Score" = some dv →
      lookupKey (TrendlyneStocksService.rowData
        (TrendlyneStocksService.cleanedRow r2)) "Valuation Score" = some vv →
      ∃ t, lookupKey (TrendlyneStocksService._process_csv_rows [r1, r2]
            file_name []) key = some t ∧
        lookupKey t.data "Durability Score" = some dv ∧
        lookupKey t.data "Valuation Score" = some vv ∧
        ∀ f w, lookupKey (TrendlyneStocksService.rowData
              (TrendlyneStocksService.cleanedRow r1)) f = some w →
          lookupKey (TrendlyneStocksService.rowData
            (TrendlyneStocksService.cleanedRow r2)) f = none →
          lookupKey t.data f = some w := by
  intro r1 r2 file_name key n1 n2 dv vv hk1 hk2 hn1 hn2 hd hv
  obtain ⟨t1, hl1, hdata1⟩ :=
    TrendlyneStocksService.processRow_creates file_name r1 key n1 hk1 hn1
  obtain ⟨t, hl, hdata⟩ :=
    TrendlyneStocksService.processRow_merges file_name r2 key t1
      (TrendlyneStocksService.processRow file_name [] r1) hk2 ⟨n2, hn2⟩ hl1
  refine ⟨t, hl, ?_, ?_, ?_⟩
  · rw [hdata]
    exact lookupKey_dictUpdate_of_some _ _ _ _
      (TrendlyneStocksService.noDupKeys_rowData _) hd
  · rw [hdata]
    exact lookupKey_dictUpdate_of_some _ _ _ _
      (TrendlyneStocksService.noDupKeys_rowData _) hv
  · intro f w hw hnone
    rw [hdata, lookupKey_dictUpdate_of_none _ _ _ hnone, hdata1]
    exact hw

/-- First example row: identity plus a ROE cell, no index scores. -/
def exRow1 : TrendlyneStocksService.Row :=
  [("ISIN", "INE111A01011"), ("Stock", "Acme"), ("ROE Ann  %", "15.2")]

/-- Second example row: same identity, both index scores, no ROE cell. -/
def exRow2 : TrendlyneStocksService.Row :=
  [("ISIN", "INE111A01011"), ("Stock", "Acme"),
   ("Durability Score", "75"), ("Valuation Score", "60")]

/-- Witness for C3's amended statement: the merged instrument for the
concrete two-row batch carries both scores and keeps the first row's ROE. -/
theorem trendlyne_merge_retains_fields_witness :
    ∃ t, lookupKey (TrendlyneStocksService._process_csv_rows [exRow1, exRow2]
          "trendlyne-filtered (1).csv" []) "ISIN:INE111A01011" = some t ∧
      lookupKey t.data "Durability Score" = some "75" ∧
      lookupKey t.data "Valuation Score" = some "60" ∧
      ∀ f w, lookupKey (TrendlyneStocksService.rowData
            (TrendlyneStocksService.cleanedRow exRow1)) f = some w →
        lookupKey (TrendlyneStocksService.rowData
          (TrendlyneStocksService.cleanedRow exRow2)) f = none →
        lookupKey t.data f = some w :=
  trendlyne_merge_retains_fields exRow1 exRow2 "trendlyne-filtered (1).csv"
    "ISIN:INE111A01011" "Acme" "Acme" "75" "60" rfl rfl rfl rfl rfl rfl

/-- The claimed invariant on one open data map: every stored value is a
non-empty cleaned string, never `""` and never the bare placeholder `"-"`
(and the map is `String`-valued, so no `None` can be stored at all). -/
def ValuesClean (m : List (String × String)) : Prop :=
  ∀ kv ∈ m, kv.2 ≠ "" ∧ kv.2 ≠ "-"

/-- The invariant over the whole loaded collection. -/
def StateClean (stocks : List (String × TrendlyneStock)) : Prop :=
  ∀ kv ∈ stocks, ValuesClean kv.2.data

namespace TrendlyneStocksService

theorem clean_value_clean (value : String) (w : String)
    (h : _clean_value value = some w) : w ≠ "" ∧ w ≠ "-" := by
  unfold _clean_value at h
  dsimp only at h
  split_ifs at h with hc
  push_neg at hc
  have hw := Option.some.inj h
  subst hw
  exact ⟨fun he => hc.1 (congrArg String.data he),
    fun he => hc.2 (congrArg String.data he)⟩

theorem mem_updateKey {α : Type} (m : List (String × α)) (k : String) (v : α)
    (x : String × α) (h : x ∈ updateKey m k v) : x ∈ m ∨ x.2 = v := by
  induction m with
  | nil => exact absurd h (List.not_mem_nil x)
  | cons kv rest ih =>
    unfold updateKey at h
    split_ifs at h with hk
    · rcases List.mem_cons.mp h with rfl | h2
      · exact Or.inr rfl
      · exact Or.inl (List.mem_cons.mpr (Or.inr h2))
    · rcases List.mem_cons.mp h with rfl | h2
      · exact Or.inl (List.mem_cons_self _ _)
      · rcases ih h2 with h3 | h3
        · exact Or.inl (List.mem_cons.mpr (Or.inr h3))
        · exact Or.inr h3

theorem mem_dictInsert {α : Type} (m : List (String × α)) (k : String) (v : α)
    (x : String × α) (h : x ∈ dictInsert m k v) : x ∈ m ∨ x.2 = v := by
  unfold dictInsert at h
  cases hm : lookupKey m k with
  | some w =>
    rw [hm] at h
    exact mem_updateKey m k v x h
  | none =>
    rw [hm] at h
    rcases List.mem_append.mp h with h2 | h2
    · exact Or.inl h2
    · rcases List.mem_singleton.mp h2 with rfl
      exact Or.inr rfl

theorem valuesClean_dictInsert (m : List (String × String)) (k v : String)
    (hm : ValuesClean m) (hv : v ≠ "" ∧ v ≠ "-") :
    ValuesClean (dictInsert m k v) := by
  intro kv hkv
  rcases mem_dictInsert m k v kv hkv with h | h
  · exact hm kv h
  · rw [h]
    exact hv

theorem valuesClean_dictUpdate (newer : List (String × String)) :
    ∀ m, ValuesClean m → ValuesClean newer →
      ValuesClean (dictUpdate m newer) := by
  induction newer with
  | nil => intro m hm _; exact hm
  | cons kv rest ih =>
    intro m hm hn
    unfold dictUpdate
    rw [List.foldl_cons]
    have h1 : ValuesClean (dictInsert m kv.1 kv.2) :=
      valuesClean_dictInsert m kv.1 kv.2 hm (hn kv (List.mem_cons_self kv rest))
    have h2 : ValuesClean rest := fun x hx => hn x (List.mem_cons.mpr (Or.inr hx))
    exact ih (dictInsert m kv.1 kv.2) h1 h2

theorem valuesClean_rowDataStep (row : Row) :
    ∀ acc : List (String × String), ValuesClean acc →
      ValuesClean (row.foldl
        (fun acc kv =>
          if kv.1 ∈ coreFields then acc
          else
            match _clean_value kv.2 with
            | none => acc
            | some cv => dictInsert acc kv.1 cv) acc) := by
  induction row with
  | nil => intro acc h; exact h
  | cons kv rest ih =>
    intro acc h
    rw [List.foldl_cons]
    apply ih
    split_ifs
    · exact h
    · cases hcv : _clean_value kv.2 with
      | none => exact h
      | some cv =>
        exact valuesClean_dictInsert acc kv.1 cv h (clean_value_clean kv.2 cv hcv)

theorem valuesClean_rowData (row : Row) : ValuesClean (rowData row) :=
  valuesClean_rowDataStep row [] (fun x hx => absurd hx (List.not_mem_nil x))

theorem mem_of_lookupKey {α : Type} (m : List (String × α)) (k : String) (v : α)
    (h : lookupKey m k = some v) : (k, v) ∈ m := by
  induction m with
  | nil => exact absurd h (by simp [lookupKey])
  | cons kv rest ih =>
    unfold lookupKey at h
    split_ifs at h with hk
    · obtain rfl : kv.2 = v := Option.some.inj h
      subst hk
      exact List.mem_cons_self _ _
    · exact List.mem_cons.mpr (Or.inr (ih h))

theorem stateClean_processRow (file_name : String)
    (stocks : List (String × TrendlyneStock)) (r : Row)
    (h : StateClean stocks) : StateClean (processRow file_name stocks r) := by
  unfold processRow
  dsimp only
  split
  · exact h
  · rename_i stock_key heqk
    split
    · exact h
    · rename_i stock_name heqn
      split
      · rename_i existing heq
        intro kv hkv
        rcases mem_updateKey stocks stock_key _ kv hkv with h2 | h2
        · exact h kv h2
        · rw [h2]
          exact valuesClean_dictUpdate (rowData (cleanedRow r)) existing.data
            (h (stock_key, existing) (mem_of_lookupKey stocks stock_key existing heq))
            (valuesClean_rowData (cleanedRow r))
      · intro kv hkv
        rcases List.mem_append.mp hkv with h2 | h2
        · exact h kv h2
        · rcases List.mem_singleton.mp h2 with rfl
          exact valuesClean_rowData (cleanedRow r)

theorem stateClean_processRows (rows : List Row) :
    ∀ (file_name : String) (stocks : List (String × TrendlyneStock)),
      StateClean stocks →
      StateClean (_process_csv_rows rows file_name stocks) := by
  induction rows with
  | nil => intro f stocks h; exact h
  | cons r rs ih =>
    intro f stocks h
    unfold _process_csv_rows
    rw [List.foldl_cons]
    exact ih f _ (stateClean_processRow f stocks r h)

theorem stateClean_load (force : Bool) :
    ∀ (files : List CSVFile) (acc : TLState × ℕ),
      StateClean acc.1.stocks →
      StateClean (files.foldl (loadStep force) acc).1.stocks := by
  intro files
  induction files with
  | nil => intro acc h; exact h
  | cons f fs ih =>
    intro acc h
    rw [List.foldl_cons]
    apply ih
    unfold loadStep
    split_ifs
    · exact h
    · exact stateClean_processRows f.2 f.1 acc.1.stocks h

end TrendlyneStocksService

/-- C10 (confirmed): every value in a loaded stock's open data map is a
cleaned non-empty string — never `""` and never the bare `"-"` placeholder
(the map is `String`-valued, so `None` is unrepresentable): the invariant
holds of the fresh service and is preserved by every load (forced or not),
including the merge path. -/
theorem trendlyne_data_values_always_clean :
    StateClean TrendlyneStocksService.initialState.stocks ∧
    ∀ (st : TrendlyneStocksService.TLState)
      (files : List TrendlyneStocksService.CSVFile) (force : Bool),
      StateClean st.stocks →
      StateClean (TrendlyneStocksService.load_all_files force st files).1.stocks := by
  constructor
  · intro kv hkv
    exact absurd hkv (List.not_mem_nil kv)
  · intro st files force h
    exact TrendlyneStocksService.stateClean_load force files (st, 0) h

/-- Witness for C10: the invariant after loading a concrete file into the
fresh service. -/
theorem trendlyne_data_values_always_clean_witness :
    StateClean (TrendlyneStocksService.load_all_files true
      TrendlyneStocksService.initialState
      [("trendlyne-filtered (1).csv", [exRow1])]).1.stocks :=
  trendlyne_data_values_always_clean.2 TrendlyneStocksService.initialState
    [("trendlyne-filtered (1).csv", [exRow1])] true
    (fun kv hkv => absurd hkv (List.not_mem_nil kv))
